import Mathlib

/-!
Verification of the offline-first synchronization core of the Attendance-Portal
repository.

Server side: a shallow embedding of the `POST /sync` reconciliation endpoint
(`backend/index.js`, `createApp`): per-operation envelope validation, the
per-principal dedupe ledger, last-write-wins (LWW) conflict resolution via
`isIncomingNewer`, and the student / attendance entity branches.  The
authoritative store is modelled after the supabase tables as exercised by the
backend test harness (`__tests__/sync.test.cjs`): rows carry an `updated_at`
stamp that the database assigns from the server clock (`state.now()`) on every
insert and update.  ISO-8601 timestamps are modelled by their parsed instants
(integers, as returned by `Date.prototype.getTime`); an absent or unparseable
timestamp is `none`.

Client side: a shallow embedding of the sync driver (`app/src/offline/sync.ts`)
and the repository layer (`app/src/offline/repo.ts`): the durable operation
queue, `computeBackoffMs`, the `q:<id>:<recordId>` wire op-id scheme and its
`/^q:(\d+):/` capture, and the success handling that back-fills server ids and
deletes applied queue rows.  JSON payloads are modelled by their parsed values
(JSON.parse after JSON.stringify is the identity on them).
-/

namespace AttendancePortal

/-! ### Server-side data model -/

/-- A row of the authoritative `students` table, scoped to one principal
(`teacher_id`).  `updatedAt` is the database-assigned stamp (`none` models a
NULL / unparseable value, which `isIncomingNewer` treats as always-older). -/
structure Student where
  id : Nat
  teacherId : String
  rollNo : Int
  name : String
  isDeleted : Bool
  updatedAt : Option Int
deriving Repr, DecidableEq

/-- A row of the authoritative `attendance` table. -/
structure AttRow where
  id : Nat
  teacherId : String
  studentId : Nat
  date : String
  status : String
  isDeleted : Bool
  updatedAt : Option Int
deriving Repr, DecidableEq

/-- The duck-typed `op.data` payload of a wire operation: every field is
optional, `none` modelling an absent (or non-string / non-numeric where the
code checks `typeof`) property. -/
structure OpData where
  id : Option Nat := none
  roll_no : Option Int := none
  name : Option String := none
  student_id : Option Nat := none
  date : Option String := none
  status : Option String := none
deriving Repr, DecidableEq

/-- A wire operation `{op_id, entity, action, client_updated_at, data}` as
received by `POST /sync`.  `client_updated_at` holds the result of
`parseClientUpdatedAt`: `none` when absent or not parseable to a valid date. -/
structure Operation where
  op_id : Option String := none
  entity : Option String := none
  action : Option String := none
  client_updated_at : Option Int := none
  data : OpData := {}
deriving Repr, DecidableEq

/-- One verdict object as pushed onto `applied` / `skipped` / `rejected`.
Fields that a given push does not mention stay `none`.  `err` is the `error`
property attached by the per-operation catch. -/
structure Verdict where
  op_id : Option String := none
  entity : Option String := none
  action : Option String := none
  reason : Option String := none
  id : Option Nat := none
  server_updated_at : Option Int := none
  err : Option String := none
deriving Repr, DecidableEq

/-- The authoritative server store: the two entity tables, the `sync_dedupe`
ledger (list of already-consumed op ids), the id sequences backing the two
tables, and the server clock used for DB-assigned `updated_at` stamps. -/
structure ServerState where
  students : List Student
  attendance : List AttRow
  dedupe : List String
  studentSeq : Nat
  attSeq : Nat
  now : Int
deriving Repr, DecidableEq

/-- The three verdict lists accumulated by the `/sync` handler. -/
structure Outcome where
  applied : List Verdict := []
  skipped : List Verdict := []
  rejected : List Verdict := []
deriving Repr, DecidableEq

/-- Concatenation of outcomes, matching the handler pushing verdicts of
successive operations onto the same three arrays. -/
def Outcome.comb (a b : Outcome) : Outcome :=
  { applied := a.applied ++ b.applied
    skipped := a.skipped ++ b.skipped
    rejected := a.rejected ++ b.rejected }

/-! ### Server-side helpers -/

/-- JavaScript truthiness of an optional number (`0`, `null`, `undefined` are
falsy). -/
def truthyNat : Option Nat → Bool
  | some n => n != 0
  | none => false

/-- JavaScript truthiness of an optional (possibly signed) number. -/
def truthyInt : Option Int → Bool
  | some n => n != 0
  | none => false

/-- JavaScript truthiness of an optional string (`""`, `null`, `undefined` are
falsy). -/
def truthyStr : Option String → Bool
  | some s => s != ""
  | none => false

/-- JavaScript `String.prototype.trim`: strip leading and trailing whitespace.
Structural recursion over the character list (the byte-position based
`String.trim` of core Lean computes the same string but does not reduce in the
kernel). -/
def jsTrim (s : String) : String :=
  String.mk (((s.data.dropWhile Char.isWhitespace).reverse.dropWhile
    Char.isWhitespace).reverse)

/-- `typeof v === "string" ? v.trim() : ""`, the normalization the handler
applies to `data.date`, `data.status` and `data.name`. -/
def trimOr : Option String → String
  | some s => jsTrim s
  | none => ""

/-- `isIncomingNewer(incoming, serverUpdatedAt)` from the backend: a missing
incoming stamp is never newer; a missing or unparseable stored stamp makes the
incoming one newer; otherwise strict `>` on instants (server wins ties). -/
def isIncomingNewer : Option Int → Option Int → Bool
  | none, _ => false
  | some _, none => true
  | some i, some s => i > s

/-- `students` lookup by authoritative id scoped to the principal
(`.eq("id", ...).eq("teacher_id", ...).maybeSingle()`). -/
def findStudentById (st : ServerState) (tid : String) (sid : Nat) : Option Student :=
  st.students.find? fun s => s.id == sid && s.teacherId == tid

/-- `students` lookup by `(teacher_id, roll_no)`. -/
def findStudentByRoll (st : ServerState) (tid : String) (roll : Int) : Option Student :=
  st.students.find? fun s => s.teacherId == tid && s.rollNo == roll

/-- `getStudentForTeacher` from the `/sync` handler: resolve the referenced
roster row by authoritative id, scoped to the calling principal. -/
def getStudentForTeacher (st : ServerState) (tid : String) (sid : Nat) : Option Student :=
  findStudentById st tid sid

/-- `attendance` lookup by `(teacher_id, student_id, date)`. -/
def findAttendance (st : ServerState) (tid : String) (sid : Nat) (date : String) :
    Option AttRow :=
  st.attendance.find? fun a => a.teacherId == tid && a.studentId == sid && a.date == date

/-- Target resolution of the student `delete` branch: by authoritative id when
truthy, else by raw `roll_no` when present. -/
def studentDeleteTarget (st : ServerState) (tid : String) (d : OpData) : Option Student :=
  match d.id with
  | some i =>
      if i != 0 then findStudentById st tid i
      else
        match d.roll_no with
        | some r => findStudentByRoll st tid r
        | none => none
  | none =>
      match d.roll_no with
      | some r => findStudentByRoll st tid r
      | none => none

/-- Target resolution of the student `create` / `update` branch: by
authoritative id when truthy, else by the validated roll number. -/
def studentUpsertTarget (st : ServerState) (tid : String) (d : OpData) (roll : Int) :
    Option Student :=
  match d.id with
  | some i => if i != 0 then findStudentById st tid i else findStudentByRoll st tid roll
  | none => findStudentByRoll st tid roll

/-- Replace the student row with the given id (the `.update().eq("id", ...)`
write-back). -/
def writeStudent (st : ServerState) (sid : Nat) (tid : String) (row : Student) : ServerState :=
  { st with students := st.students.map fun s => if s.id == sid && s.teacherId == tid then row else s }

/-- Replace the attendance row with the given id. -/
def writeAttendance (st : ServerState) (aid : Nat) (tid : String) (row : AttRow) : ServerState :=
  { st with attendance := st.attendance.map fun a => if a.id == aid && a.teacherId == tid then row else a }

/-! ### The `/sync` entity branches -/

/-- The `entity === "student"` branch of the `/sync` handler, entered after
envelope validation and a successful dedupe-ledger insert.  `e` and `a` are the
(truthy) entity and action strings, `c` the parsed `client_updated_at`. -/
def processStudent (tid : String) (st : ServerState) (opId e a : String) (c : Int)
    (d : OpData) : ServerState × Outcome :=
  if a == "delete" then
    match studentDeleteTarget st tid d with
    | none =>
        (st, { rejected := [{ op_id := some opId, entity := some e, action := some a,
                              reason := some "Student not found" }] })
    | some existing =>
        if !(isIncomingNewer (some c) existing.updatedAt) then
          (st, { rejected := [{ op_id := some opId, entity := some e, action := some a,
                                reason := some "Stale update (LWW)",
                                server_updated_at := existing.updatedAt }] })
        else
          let updated := { existing with isDeleted := true, updatedAt := some st.now }
          (writeStudent st existing.id tid updated,
           { applied := [{ op_id := some opId, entity := some e, action := some a,
                           id := some updated.id,
                           server_updated_at := updated.updatedAt }] })
  else if a == "create" || a == "update" then
    let name := trimOr d.name
    if name == "" then
      (st, { rejected := [{ op_id := some opId, entity := some e, action := some a,
                            reason := some "Invalid student payload" }] })
    else
      match d.roll_no with
      | none =>
          (st, { rejected := [{ op_id := some opId, entity := some e, action := some a,
                                reason := some "Invalid student payload" }] })
      | some roll =>
          if roll ≤ 0 then
            (st, { rejected := [{ op_id := some opId, entity := some e, action := some a,
                                  reason := some "Invalid student payload" }] })
          else
            match studentUpsertTarget st tid d roll with
            | none =>
                let created : Student :=
                  { id := st.studentSeq + 1, teacherId := tid, rollNo := roll,
                    name := name, isDeleted := false, updatedAt := some st.now }
                ({ st with students := st.students ++ [created],
                           studentSeq := st.studentSeq + 1 },
                 { applied := [{ op_id := some opId, entity := some e,
                                 action := some "create", id := some created.id,
                                 server_updated_at := created.updatedAt }] })
            | some existing =>
                if !(isIncomingNewer (some c) existing.updatedAt) then
                  (st, { rejected := [{ op_id := some opId, entity := some e,
                                        action := some a,
                                        reason := some "Stale update (LWW)",
                                        id := some existing.id,
                                        server_updated_at := existing.updatedAt }] })
                else
                  let updated := { existing with
                                   rollNo := roll
                                   name := name
                                   isDeleted := false
                                   updatedAt := some st.now }
                  (writeStudent st existing.id tid updated,
                   { applied := [{ op_id := some opId, entity := some e,
                                   action := some "update", id := some updated.id,
                                   server_updated_at := updated.updatedAt }] })
  else
    (st, { rejected := [{ op_id := some opId, entity := some e, action := some a,
                          reason := some "Unsupported action" }] })

/-- The `entity === "attendance"` branch.  Mirrors the handler including its
final slip: after a successful update it inserts the already-consumed op id
into `sync_dedupe` a second time; the insert collides (code 23505), the error
is thrown and the per-operation catch pushes an additional "Server error"
verdict onto `rejected`. -/
def processAttendance (tid : String) (st : ServerState) (opId e a : String) (c : Int)
    (d : OpData) : ServerState × Outcome :=
  let date := trimOr d.date
  let status := trimOr d.status
  match d.student_id with
  | none =>
      (st, { rejected := [{ op_id := some opId, entity := some e, action := some a,
                            reason := some "Missing student_id or date" }] })
  | some sid =>
      if sid == 0 || date == "" then
        (st, { rejected := [{ op_id := some opId, entity := some e, action := some a,
                              reason := some "Missing student_id or date" }] })
      else
        match getStudentForTeacher st tid sid with
        | none =>
            (st, { rejected := [{ op_id := some opId, entity := some e, action := some a,
                                  reason := some "Student does not belong to teacher" }] })
        | some srow =>
            if srow.isDeleted then
              (st, { rejected := [{ op_id := some opId, entity := some e, action := some a,
                                    reason := some "Student is deleted" }] })
            else
              let existing := findAttendance st tid sid date
              if a == "delete" then
                match existing with
                | none =>
                    (st, { rejected := [{ op_id := some opId, entity := some e,
                                          action := some a,
                                          reason := some "Attendance not found" }] })
                | some ex =>
                    if !(isIncomingNewer (some c) ex.updatedAt) then
                      (st, { rejected := [{ op_id := some opId, entity := some e,
                                            action := some a,
                                            reason := some "Stale update (LWW)",
                                            id := some ex.id,
                                            server_updated_at := ex.updatedAt }] })
                    else
                      let updated := { ex with isDeleted := true, updatedAt := some st.now }
                      (writeAttendance st ex.id tid updated,
                       { applied := [{ op_id := some opId, entity := some e,
                                       action := some a, id := some updated.id,
                                       server_updated_at := updated.updatedAt }] })
              else if a == "create" || a == "update" then
                if status != "Present" && status != "Absent" then
                  (st, { rejected := [{ op_id := some opId, entity := some e,
                                        action := some a,
                                        reason := some "Invalid status" }] })
                else
                  match existing with
                  | none =>
                      let created : AttRow :=
                        { id := st.attSeq + 1, teacherId := tid, studentId := sid,
                          date := date, status := status, isDeleted := false,
                          updatedAt := some st.now }
                      ({ st with attendance := st.attendance ++ [created],
                                 attSeq := st.attSeq + 1 },
                       { applied := [{ op_id := some opId, entity := some e,
                                       action := some "create", id := some created.id,
                                       server_updated_at := created.updatedAt }] })
                  | some ex =>
                      if !(isIncomingNewer (some c) ex.updatedAt) then
                        (st, { rejected := [{ op_id := some opId, entity := some e,
                                              action := some a,
                                              reason := some "Stale update (LWW)",
                                              id := some ex.id,
                                              server_updated_at := ex.updatedAt }] })
                      else
                        let updated := { ex with
                                         status := status
                                         isDeleted := false
                                         updatedAt := some st.now }
                        let st1 := writeAttendance st ex.id tid updated
                        let appliedVerdict : Verdict :=
                          { op_id := some opId, entity := some e, action := some "update",
                            id := some updated.id,
                            server_updated_at := updated.updatedAt }
                        if opId ∈ st1.dedupe then
                          (st1, { applied := [appliedVerdict],
                                  rejected := [{ op_id := some opId, entity := some e,
                                                 action := some a,
                                                 reason := some "Server error",
                                                 err := some "duplicate key value violates unique constraint" }] })
                        else
                          ({ st1 with dedupe := opId :: st1.dedupe },
                           { applied := [appliedVerdict] })
              else
                (st, { rejected := [{ op_id := some opId, entity := some e,
                                      action := some a,
                                      reason := some "Unsupported action" }] })

/-- One iteration of the `/sync` per-operation loop: envelope validation,
dedupe-ledger insert (a collision yields `skipped`), then entity dispatch.
`fault` injects an unexpected storage error at the ledger insert: `some msg`
makes the insert fail with a non-23505 error, which the code throws and the
per-operation catch converts into a "Server error" rejection. -/
def processOp (fault : String → Option String) (tid : String) (st : ServerState)
    (op : Operation) : ServerState × Outcome :=
  match op.op_id with
  | none =>
      (st, { rejected := [{ op_id := none, entity := op.entity, action := op.action,
                            reason := some "Missing op_id" }] })
  | some opId =>
      if jsTrim opId == "" then
        (st, { rejected := [{ op_id := some opId, entity := op.entity, action := op.action,
                              reason := some "Missing op_id" }] })
      else if !(truthyStr op.entity) || !(truthyStr op.action) then
        (st, { rejected := [{ op_id := some opId, reason := some "Missing entity or action" }] })
      else
        match op.client_updated_at with
        | none =>
            (st, { rejected := [{ op_id := some opId, entity := op.entity,
                                  action := op.action,
                                  reason := some "Invalid client_updated_at" }] })
        | some c =>
            if opId ∈ st.dedupe then
              (st, { skipped := [{ op_id := some opId, entity := op.entity,
                                   action := op.action,
                                   reason := some "Duplicate op_id" }] })
            else
              match fault opId with
              | some msg =>
                  (st, { rejected := [{ op_id := some opId, entity := op.entity,
                                        action := op.action, reason := some "Server error",
                                        err := some msg }] })
              | none =>
                  let st1 := { st with dedupe := opId :: st.dedupe }
                  match op.entity, op.action with
                  | some e, some a =>
                      if e == "student" then processStudent tid st1 opId e a c op.data
                      else if e == "attendance" then processAttendance tid st1 opId e a c op.data
                      else
                        (st1, { rejected := [{ op_id := some opId, entity := some e,
                                               action := some a,
                                               reason := some "Unsupported entity" }] })
                  | _, _ => (st1, {})

/-- The `/sync` loop over a batch: strictly sequential, verdicts of successive
operations appended to the shared `applied` / `skipped` / `rejected` arrays. -/
def processSync (fault : String → Option String) (tid : String) (st : ServerState) :
    List Operation → ServerState × Outcome
  | [] => (st, {})
  | op :: ops =>
      let r1 := processOp fault tid st op
      let r2 := processSync fault tid r1.1 ops
      (r2.1, Outcome.comb r1.2 r2.2)

/-! ### Client-side sync driver -/

/-- `computeBackoffMs` from the sync driver: exponential backoff with base 1s,
exponent clamped to at most 6, capped at 60s. -/
def computeBackoffMs (attempts : Nat) : Nat :=
  let base := 1000
  let maxMs := 60000
  let e := min 6 (max 0 attempts)
  min maxMs (base * 2 ^ e)

/-! ### Decimal rendering facts

The driver renders queue ids into wire op ids with a template literal
(`q:<id>:<recordId>`) and later compares the digits captured by
`/^q:(\d+):/` against `String(row.id)`.  Both renderings are `Nat.repr`.
`decRep` is a reference recursion for `Nat.repr`'s character list, used to
prove that the rendering is made of digits, is non-empty and is injective. -/

/-- Reference decimal rendering: the character list `Nat.repr` produces. -/
def decRep (n : Nat) : List Char :=
  if _h : n < 10 then [Nat.digitChar n]
  else decRep (n / 10) ++ [Nat.digitChar (n % 10)]
decreasing_by exact Nat.div_lt_self (by omega) (by omega)

/-- Decimal value of a digit-character list, inverting `decRep`. -/
def decVal (l : List Char) : Nat :=
  l.foldl (fun a c => 10 * a + (c.toNat - 48)) 0

/-! ### Client-side data model -/

/-- A parsed `sync_queue` payload (stored serialized; modelled by its parse). -/
structure QPayload where
  roll_no : Option Int := none
  name : Option String := none
  student_id : Option Nat := none
  student_local_id : Option Nat := none
  student_server_id : Option Nat := none
  date : Option String := none
  status : Option String := none
deriving Repr, DecidableEq

/-- A `sync_queue` row. -/
structure QueueRow where
  id : Nat
  table_name : String
  record_id : String
  op_type : String
  payload : QPayload
  client_updated_at : Int
  attempts : Nat
deriving Repr, DecidableEq

/-- A `students_local` row. -/
structure StudentLocalRow where
  local_id : Nat
  server_id : Option Nat
  teacher_id : String
  roll_no : Int
  name : String
  is_deleted : Bool
  updated_at : Int
  client_updated_at : Int
deriving Repr, DecidableEq

/-- An `attendance_local` row. -/
structure AttendanceLocalRow where
  local_id : Nat
  server_id : Option Nat
  teacher_id : String
  student_local_id : Nat
  student_server_id : Option Nat
  date : String
  status : String
  is_deleted : Bool
  updated_at : Int
deriving Repr, DecidableEq

/-- The client's local SQLite store.  `queue` is kept in ascending-id order:
`enqueueOp` appends rows with the autoincremented id `queueSeq + 1`, so the
`ORDER BY id ASC` of `getQueueBatch` is the identity on it. -/
structure LocalDb where
  students : List StudentLocalRow
  attendance : List AttendanceLocalRow
  queue : List QueueRow
  queueSeq : Nat
deriving Repr, DecidableEq

/-- One verdict object of the server response as consumed by the driver. -/
structure RespItem where
  op_id : Option String := none
  entity : Option String := none
  action : Option String := none
  id : Option Nat := none
  server_updated_at : Option Int := none
deriving Repr, DecidableEq

/-- The `/sync` response body as consumed by the driver. -/
structure SyncResponse where
  applied : List RespItem := []
  skipped : List RespItem := []
  rejected : List RespItem := []
  server_time : Int
deriving Repr, DecidableEq

/-! ### Client-side repository layer (`repo.ts`) -/

/-- `enqueueOp`: append a pending operation to `sync_queue` with a fresh
autoincremented id and a zero attempt counter. -/
def enqueueOp (db : LocalDb) (entity recordId opType : String) (payload : QPayload)
    (clientUpdatedAt : Int) : LocalDb :=
  { db with
    queue := db.queue ++ [{ id := db.queueSeq + 1, table_name := entity,
                            record_id := recordId, op_type := opType, payload := payload,
                            client_updated_at := clientUpdatedAt, attempts := 0 }]
    queueSeq := db.queueSeq + 1 }

/-- `getQueueBatch(limit)`: oldest rows first (`ORDER BY id ASC LIMIT ?`;
the identity prefix of the id-ordered queue list). -/
def getQueueBatch (db : LocalDb) (limit : Nat) : List QueueRow :=
  db.queue.take limit

/-- `deleteQueueRows(ids)`: `DELETE FROM sync_queue WHERE id IN (...)`,
a no-op on the empty id list. -/
def deleteQueueRows (db : LocalDb) (ids : List Nat) : LocalDb :=
  if ids.isEmpty then db
  else { db with queue := db.queue.filter fun q => !(ids.contains q.id) }

/-- `updateQueuedAttendanceStudentId`: patch the freshly-learned student server
id into every queued attendance payload that references the student by local id
and has no server id yet. -/
def updateQueuedAttendanceStudentId (db : LocalDb) (studentLocalId studentServerId : Nat) :
    LocalDb :=
  { db with
    queue := db.queue.map fun row =>
      if row.table_name == "attendance" then
        if row.payload.student_local_id == some studentLocalId
            && !(truthyNat row.payload.student_id) then
          { row with payload := { row.payload with
                                  student_id := some studentServerId
                                  student_server_id := some studentServerId } }
        else row
      else row }

/-- `attachServerIdToStudent`: back-fill the authoritative id (and server
`updated_at`) into the local student row keyed by `(teacher_id, roll_no)`,
propagate it into local attendance rows and queued attendance payloads. -/
def attachServerIdToStudent (db : LocalDb) (teacherId : String) (rollNo : Int)
    (serverId : Nat) (serverUpdatedAt : Int) : LocalDb :=
  let db1 : LocalDb :=
    { db with
      students := db.students.map fun s =>
        if s.teacher_id == teacherId && s.roll_no == rollNo then
          { s with server_id := some serverId, updated_at := serverUpdatedAt }
        else s }
  match db1.students.find? fun s => s.teacher_id == teacherId && s.roll_no == rollNo with
  | some srow =>
      let db2 : LocalDb :=
        { db1 with
          attendance := db1.attendance.map fun a =>
            if a.teacher_id == teacherId && a.student_local_id == srow.local_id then
              { a with student_server_id := some serverId }
            else a }
      updateQueuedAttendanceStudentId db2 srow.local_id serverId
  | none => db1

/-- `attachServerIdToAttendance`: back-fill the authoritative id into the local
attendance row keyed by `(teacher_id, local_id)`. -/
def attachServerIdToAttendance (db : LocalDb) (teacherId : String) (localId : Nat)
    (serverId : Nat) (serverUpdatedAt : Int) : LocalDb :=
  { db with
    attendance := db.attendance.map fun a =>
      if a.teacher_id == teacherId && a.local_id == localId then
        { a with server_id := some serverId, updated_at := serverUpdatedAt }
      else a }

/-! ### Client-side sync driver (`sync.ts`) -/

/-- The wire op id built by `toSyncOperation`: the template literal
`q:<queue row id>:<record id>` (a number interpolates as its decimal
rendering). -/
def mkOpId (qid : Nat) (recordId : String) : String :=
  "q:" ++ Nat.repr qid ++ ":" ++ recordId

/-- The capture group of `opId.match(/^q:(\d+):/)`: the maximal leading digit
run after the `q:` prefix, provided it is non-empty and followed by `:`. -/
def matchQueueOpId (s : String) : Option String :=
  match s.data with
  | c1 :: c2 :: rest =>
      if c1 == 'q' && c2 == ':' then
        let ds := rest.takeWhile fun c => c.isDigit
        if ds.isEmpty then none
        else
          match rest.dropWhile fun c => c.isDigit with
          | c3 :: _ => if c3 == ':' then some (String.mk ds) else none
          | [] => none
      else none
  | _ => none

/-- The back-fill of one `applied` student verdict inside the driver's success
loop: locate the queue row whose rendered id equals the captured digits, and
when its payload carries a truthy `roll_no` and the verdict a truthy `id`, call
`attachServerIdToStudent` (with `server_time` as the stamp fallback). -/
def backfillStudent (tid : String) (batch : List QueueRow) (serverTime : Int)
    (db : LocalDb) (item : RespItem) : LocalDb :=
  if item.entity == some "student"
      && (item.action == some "create" || item.action == some "update") then
    match matchQueueOpId (item.op_id.getD "") with
    | some digits =>
        match batch.find? fun b => Nat.repr b.id == digits with
        | some row =>
            if truthyInt row.payload.roll_no && truthyNat item.id then
              attachServerIdToStudent db tid (row.payload.roll_no.getD 0)
                (item.id.getD 0) ((item.server_updated_at).getD serverTime)
            else db
        | none => db
    | none => db
  else db

/-- `Number(s)` on the record-id strings the driver feeds it: the value of a
non-empty all-digit decimal numeral, `none` (NaN, not finite) otherwise. -/
def decParse (s : String) : Option Nat :=
  if !s.data.isEmpty && s.data.all Char.isDigit then
    some (s.data.foldl (fun a c => 10 * a + (c.toNat - 48)) 0)
  else none

/-- The back-fill of one `applied` attendance verdict: locate the queue row,
parse its `record_id` as the local attendance id (`Number(row.record_id)`;
record ids are decimal numerals) and call `attachServerIdToAttendance`. -/
def backfillAttendance (tid : String) (batch : List QueueRow) (serverTime : Int)
    (db : LocalDb) (item : RespItem) : LocalDb :=
  if item.entity == some "attendance"
      && (item.action == some "create" || item.action == some "update") then
    match matchQueueOpId (item.op_id.getD "") with
    | some digits =>
        match batch.find? fun b => Nat.repr b.id == digits with
        | some row =>
            match decParse row.record_id with
            | some localId =>
                if truthyNat item.id then
                  attachServerIdToAttendance db tid localId (item.id.getD 0)
                    ((item.server_updated_at).getD serverTime)
                else db
            | none => db
        | none => db
    | none => db
  else db

/-- One iteration of the driver's loop over `result.applied`: collect the
captured queue id digits into `appliedIds`, then run the entity back-fills. -/
def handleAppliedItem (tid : String) (batch : List QueueRow) (serverTime : Int)
    (acc : LocalDb × List String) (item : RespItem) : LocalDb × List String :=
  let ids :=
    match item.op_id with
    | some s =>
        match matchQueueOpId s with
        | some digits => acc.2 ++ [digits]
        | none => acc.2
    | none => acc.2
  let db1 := backfillStudent tid batch serverTime acc.1 item
  let db2 := backfillAttendance tid batch serverTime db1 item
  (db2, ids)

/-- The success handling of `syncNow` (HTTP 200): fold the `applied` verdicts
through the back-fills, then delete exactly the queue rows whose rendered id is
among the captured `appliedIds` (rejected and skipped verdicts drive no
deletion). -/
def handleSyncSuccess (tid : String) (db : LocalDb) (batch : List QueueRow)
    (resp : SyncResponse) : LocalDb :=
  let r := resp.applied.foldl (handleAppliedItem tid batch resp.server_time) (db, [])
  let deleteIds :=
    (batch.filter fun row => r.2.contains (Nat.repr row.id)).map fun row => row.id
  deleteQueueRows r.1 deleteIds

/-- A successful `syncNow` run: pull the oldest 50 queued rows, drop those whose
scheduled next retry (`nextAttemptByQueueId`) has not elapsed, and apply the
server's verdicts.  The wire split sending student operations ahead of
attendance operations only affects the request order, not the success
handling, which works on the unsplit batch. -/
def syncNowSuccess (tid : String) (nextAttempt : Nat → Option Int) (nowMs : Int)
    (db : LocalDb) (resp : SyncResponse) : LocalDb :=
  let batchAll := getQueueBatch db 50
  let batch := batchAll.filter fun row =>
    match nextAttempt row.id with
    | none => true
    | some t => t ≤ nowMs
  handleSyncSuccess tid db batch resp

/-! ### Lemmas about the decimal rendering -/

lemma digitChar_isDigit {n : Nat} (h : n < 10) : (Nat.digitChar n).isDigit = true := by
  interval_cases n <;> decide

lemma digitChar_toNat {n : Nat} (h : n < 10) : (Nat.digitChar n).toNat = 48 + n := by
  interval_cases n <;> decide

lemma toDigitsCore_eq_decRep :
    ∀ (f n : Nat) (l : List Char), n < f →
      Nat.toDigitsCore 10 f n l = decRep n ++ l := by
  intro f
  induction f with
  | zero => intro n l h; exact absurd h (Nat.not_lt_zero n)
  | succ f ih =>
    intro n l h
    rw [Nat.toDigitsCore]
    show (if n / 10 = 0 then Nat.digitChar (n % 10) :: l
          else Nat.toDigitsCore 10 f (n / 10) (Nat.digitChar (n % 10) :: l)) = decRep n ++ l
    by_cases hz : n / 10 = 0
    · have hn : n < 10 := by omega
      rw [if_pos hz, decRep.eq_def]
      simp only [dif_pos hn, Nat.mod_eq_of_lt hn, List.cons_append, List.nil_append]
    · have hlt : n / 10 < f := by
        have := Nat.div_lt_self (show 0 < n by omega) (show (1 : Nat) < 10 by omega)
        omega
      rw [if_neg hz]
      conv_rhs => rw [decRep.eq_def]
      rw [dif_neg (show ¬ n < 10 by omega), ih (n / 10) _ hlt]
      simp [List.append_assoc]

lemma repr_data (n : Nat) : (Nat.repr n).data = decRep n := by
  show ((Nat.toDigits 10 n).asString).data = decRep n
  rw [Nat.toDigits, toDigitsCore_eq_decRep (n + 1) n [] (Nat.lt_succ_self n),
    List.append_nil]
  rfl

lemma decRep_all_digits (n : Nat) : ∀ c ∈ decRep n, c.isDigit = true := by
  induction n using Nat.strong_induction_on with
  | _ n ih =>
    rw [decRep.eq_def]
    by_cases h : n < 10
    · simp only [dif_pos h, List.mem_singleton]
      rintro c rfl
      exact digitChar_isDigit h
    · simp only [dif_neg h, List.mem_append, List.mem_singleton]
      rintro c (hc | rfl)
      · exact ih (n / 10) (Nat.div_lt_self (by omega) (by omega)) c hc
      · exact digitChar_isDigit (Nat.mod_lt n (by omega))

lemma decRep_ne_nil (n : Nat) : decRep n ≠ [] := by
  rw [decRep.eq_def]
  split <;> simp

lemma decVal_decRep (n : Nat) : decVal (decRep n) = n := by
  induction n using Nat.strong_induction_on with
  | _ n ih =>
    rw [decRep.eq_def]
    by_cases h : n < 10
    · simp only [dif_pos h, decVal, List.foldl_cons, List.foldl_nil,
        digitChar_toNat h]
      omega
    · have hrec := ih (n / 10) (Nat.div_lt_self (by omega) (by omega))
      simp only [dif_neg h, decVal, List.foldl_append, List.foldl_cons, List.foldl_nil]
      simp only [decVal] at hrec
      rw [hrec, digitChar_toNat (Nat.mod_lt n (by omega))]
      omega

lemma repr_injective {a b : Nat} (h : Nat.repr a = Nat.repr b) : a = b := by
  have hd : decRep a = decRep b := by
    rw [← repr_data, ← repr_data, h]
  have := congrArg decVal hd
  rwa [decVal_decRep, decVal_decRep] at this

lemma data_append (s t : String) : (s ++ t).data = s.data ++ t.data := by
  cases s; cases t; rfl

lemma takeWhile_append_all {p : Char → Bool} {xs : List Char} (ys : List Char)
    (h : ∀ c ∈ xs, p c = true) :
    (xs ++ ys).takeWhile p = xs ++ ys.takeWhile p := by
  induction xs with
  | nil => rfl
  | cons x xs ih =>
    simp only [List.cons_append, List.takeWhile_cons, h x (List.mem_cons_self x xs),
      if_true]
    rw [ih fun c hc => h c (List.mem_cons_of_mem x hc)]

lemma dropWhile_append_all {p : Char → Bool} {xs : List Char} (ys : List Char)
    (h : ∀ c ∈ xs, p c = true) :
    (xs ++ ys).dropWhile p = ys.dropWhile p := by
  induction xs with
  | nil => rfl
  | cons x xs ih =>
    simp only [List.cons_append, List.dropWhile_cons, h x (List.mem_cons_self x xs),
      if_true]
    exact ih fun c hc => h c (List.mem_cons_of_mem x hc)

/-- The regex capture inverts the op-id template: matching `q:<id>:<recordId>`
captures exactly the decimal rendering of the queue row id. -/
lemma matchQueueOpId_mkOpId (qid : Nat) (rid : String) :
    matchQueueOpId (mkOpId qid rid) = some (Nat.repr qid) := by
  have hdata : (mkOpId qid rid).data = 'q' :: ':' :: (decRep qid ++ (':' :: rid.data)) := by
    show ((("q:" ++ Nat.repr qid) ++ ":") ++ rid).data = _
    rw [data_append, data_append, data_append, repr_data]
    show (['q', ':'] ++ decRep qid ++ [':']) ++ rid.data = _
    simp [List.append_assoc]
  have hmk : String.mk (decRep qid) = Nat.repr qid := by
    conv_rhs => rw [show Nat.repr qid = String.mk (Nat.repr qid).data from rfl]
    rw [repr_data]
  have hdig : ∀ c ∈ decRep qid, (fun c : Char => c.isDigit) c = true :=
    fun c hc => decRep_all_digits qid c hc
  rw [matchQueueOpId, hdata]
  dsimp only
  rw [if_pos (by decide)]
  rw [takeWhile_append_all _ hdig, dropWhile_append_all _ hdig]
  have hcolon : (List.takeWhile (fun c : Char => c.isDigit) (':' :: rid.data)) = [] := by
    simp [List.takeWhile_cons]
  have hcolon2 :
      (List.dropWhile (fun c : Char => c.isDigit) (':' :: rid.data)) = ':' :: rid.data := by
    simp [List.dropWhile_cons]
  rw [hcolon, hcolon2, List.append_nil]
  rw [if_neg (by simp [List.isEmpty_iff, decRep_ne_nil qid])]
  dsimp only
  rw [if_pos (by decide)]
  rw [hmk]

/-! ### Lemmas about the `/sync` handler -/

lemma processStudent_dedupe_eq (tid : String) (st : ServerState) (opId e a : String)
    (c : Int) (d : OpData) :
    (processStudent tid st opId e a c d).1.dedupe = st.dedupe := by
  unfold processStudent
  dsimp only
  repeat' split
  all_goals rfl

lemma processAttendance_dedupe_mem (tid : String) (st : ServerState) (opId e a : String)
    (c : Int) (d : OpData) (s : String) (h : s ∈ st.dedupe) :
    s ∈ (processAttendance tid st opId e a c d).1.dedupe := by
  unfold processAttendance
  dsimp only
  repeat' split
  all_goals first
    | exact h
    | exact List.mem_cons_of_mem _ h

lemma processOp_dup (f : String → Option String) (tid oid : String) (st : ServerState)
    (op : Operation) (h1 : op.op_id = some oid) (h2 : jsTrim oid ≠ "")
    (h3 : truthyStr op.entity = true) (h4 : truthyStr op.action = true)
    (h5 : op.client_updated_at.isSome = true) (hdup : oid ∈ st.dedupe) :
    processOp f tid st op =
      (st, { skipped := [{ op_id := some oid, entity := op.entity, action := op.action,
                           reason := some "Duplicate op_id" }] }) := by
  rw [processOp.eq_def, h1]
  dsimp only
  rw [if_neg (by simp [h2])]
  rw [if_neg (by simp [h3, h4])]
  obtain ⟨c, hc⟩ := Option.isSome_iff_exists.mp h5
  rw [hc]
  dsimp only
  rw [if_pos hdup]

lemma processOp_fresh_consumes (f : String → Option String) (tid oid : String)
    (st : ServerState) (op : Operation) (h1 : op.op_id = some oid)
    (h2 : jsTrim oid ≠ "") (h3 : truthyStr op.entity = true)
    (h4 : truthyStr op.action = true) (h5 : op.client_updated_at.isSome = true)
    (hfresh : oid ∉ st.dedupe) (hnf : f oid = none) :
    oid ∈ (processOp f tid st op).1.dedupe := by
  rw [processOp.eq_def, h1]
  dsimp only
  rw [if_neg (by simp [h2])]
  rw [if_neg (by simp [h3, h4])]
  obtain ⟨c, hc⟩ := Option.isSome_iff_exists.mp h5
  rw [hc]
  dsimp only
  rw [if_neg hfresh, hnf]
  dsimp only
  cases hent : op.entity with
  | none => rw [hent] at h3; exact absurd h3 (by simp [truthyStr])
  | some e =>
    cases hact : op.action with
    | none => rw [hact] at h4; exact absurd h4 (by simp [truthyStr])
    | some a =>
      dsimp only
      split
      · rw [processStudent_dedupe_eq]
        exact List.mem_cons_self oid st.dedupe
      · split
        · exact processAttendance_dedupe_mem _ _ _ _ _ _ _ _
            (List.mem_cons_self oid st.dedupe)
        · exact List.mem_cons_self oid st.dedupe

lemma studentDeleteTarget_dedupe (st : ServerState) (l : List String) (tid : String)
    (d : OpData) :
    studentDeleteTarget { st with dedupe := l } tid d = studentDeleteTarget st tid d := rfl

lemma studentUpsertTarget_dedupe (st : ServerState) (l : List String) (tid : String)
    (d : OpData) (r : Int) :
    studentUpsertTarget { st with dedupe := l } tid d r = studentUpsertTarget st tid d r := rfl

lemma getStudentForTeacher_dedupe (st : ServerState) (l : List String) (tid : String)
    (sid : Nat) :
    getStudentForTeacher { st with dedupe := l } tid sid = getStudentForTeacher st tid sid := rfl

lemma findAttendance_dedupe (st : ServerState) (l : List String) (tid : String)
    (sid : Nat) (date : String) :
    findAttendance { st with dedupe := l } tid sid date = findAttendance st tid sid date := rfl

lemma processOp_dispatch (f : String → Option String) (tid oid e a : String)
    (st : ServerState) (c : Int) (d : OpData)
    (h2 : jsTrim oid ≠ "") (he : e ≠ "") (ha : a ≠ "")
    (hfresh : oid ∉ st.dedupe) (hnf : f oid = none) :
    processOp f tid st
      { op_id := some oid, entity := some e, action := some a,
        client_updated_at := some c, data := d } =
      if e == "student" then
        processStudent tid { st with dedupe := oid :: st.dedupe } oid e a c d
      else if e == "attendance" then
        processAttendance tid { st with dedupe := oid :: st.dedupe } oid e a c d
      else
        ({ st with dedupe := oid :: st.dedupe },
         { rejected := [{ op_id := some oid, entity := some e, action := some a,
                          reason := some "Unsupported entity" }] }) := by
  rw [processOp.eq_def]
  dsimp only
  rw [if_neg (by simp [h2])]
  rw [if_neg (by simp [truthyStr, he, ha])]
  rw [if_neg hfresh, hnf]

lemma processStudent_delete_stale (tid : String) (st : ServerState) (opId e : String)
    (c : Int) (d : OpData) (row : Student)
    (hrow : studentDeleteTarget st tid d = some row)
    (hstale : isIncomingNewer (some c) row.updatedAt = false) :
    processStudent tid st opId e "delete" c d =
      (st, { rejected := [{ op_id := some opId, entity := some e, action := some "delete",
                            reason := some "Stale update (LWW)",
                            server_updated_at := row.updatedAt }] }) := by
  unfold processStudent
  rw [if_pos (by decide), hrow]
  dsimp only
  rw [if_pos (by simp [hstale])]

lemma processStudent_delete_newer (tid : String) (st : ServerState) (opId e : String)
    (c : Int) (d : OpData) (row : Student)
    (hrow : studentDeleteTarget st tid d = some row)
    (hnewer : isIncomingNewer (some c) row.updatedAt = true) :
    processStudent tid st opId e "delete" c d =
      (writeStudent st row.id tid { row with isDeleted := true, updatedAt := some st.now },
       { applied := [{ op_id := some opId, entity := some e, action := some "delete",
                       id := some row.id, server_updated_at := some st.now }] }) := by
  unfold processStudent
  rw [if_pos (by decide), hrow]
  dsimp only
  rw [if_neg (by simp [hnewer])]

lemma processStudent_upsert_stale (tid : String) (st : ServerState) (opId e a : String)
    (c : Int) (d : OpData) (hd : (a == "delete") = false)
    (hcu : (a == "create" || a == "update") = true) (hname : trimOr d.name ≠ "")
    (roll : Int) (hroll : d.roll_no = some roll) (hrpos : 0 < roll)
    (row : Student) (hrow : studentUpsertTarget st tid d roll = some row)
    (hstale : isIncomingNewer (some c) row.updatedAt = false) :
    processStudent tid st opId e a c d =
      (st, { rejected := [{ op_id := some opId, entity := some e, action := some a,
                            reason := some "Stale update (LWW)", id := some row.id,
                            server_updated_at := row.updatedAt }] }) := by
  unfold processStudent
  rw [if_neg (by simp [hd]), if_pos hcu]
  dsimp only
  rw [if_neg (by simp [hname]), hroll]
  dsimp only
  rw [if_neg (not_le.mpr hrpos), hrow]
  dsimp only
  rw [if_pos (by simp [hstale])]

lemma processStudent_upsert_newer (tid : String) (st : ServerState) (opId e a : String)
    (c : Int) (d : OpData) (hd : (a == "delete") = false)
    (hcu : (a == "create" || a == "update") = true) (hname : trimOr d.name ≠ "")
    (roll : Int) (hroll : d.roll_no = some roll) (hrpos : 0 < roll)
    (row : Student) (hrow : studentUpsertTarget st tid d roll = some row)
    (hnewer : isIncomingNewer (some c) row.updatedAt = true) :
    processStudent tid st opId e a c d =
      (writeStudent st row.id tid
        { row with rollNo := roll, name := trimOr d.name, isDeleted := false,
                   updatedAt := some st.now },
       { applied := [{ op_id := some opId, entity := some e, action := some "update",
                       id := some row.id, server_updated_at := some st.now }] }) := by
  unfold processStudent
  rw [if_neg (by simp [hd]), if_pos hcu]
  dsimp only
  rw [if_neg (by simp [hname]), hroll]
  dsimp only
  rw [if_neg (not_le.mpr hrpos), hrow]
  dsimp only
  rw [if_neg (by simp [hnewer])]

lemma processAttendance_delete_stale (tid : String) (st : ServerState) (opId e : String)
    (c : Int) (d : OpData) (sid : Nat) (hsid : d.student_id = some sid) (hsid0 : sid ≠ 0)
    (hdate : trimOr d.date ≠ "") (srow : Student)
    (hsrow : getStudentForTeacher st tid sid = some srow) (hsdel : srow.isDeleted = false)
    (row : AttRow) (hrow : findAttendance st tid sid (trimOr d.date) = some row)
    (hstale : isIncomingNewer (some c) row.updatedAt = false) :
    processAttendance tid st opId e "delete" c d =
      (st, { rejected := [{ op_id := some opId, entity := some e, action := some "delete",
                            reason := some "Stale update (LWW)", id := some row.id,
                            server_updated_at := row.updatedAt }] }) := by
  unfold processAttendance
  dsimp only
  rw [hsid]
  dsimp only
  rw [if_neg (by simp [hsid0, hdate]), hsrow]
  dsimp only
  rw [if_neg (by simp [hsdel]), if_pos (by decide), hrow]
  dsimp only
  rw [if_pos (by simp [hstale])]

lemma processAttendance_delete_newer (tid : String) (st : ServerState) (opId e : String)
    (c : Int) (d : OpData) (sid : Nat) (hsid : d.student_id = some sid) (hsid0 : sid ≠ 0)
    (hdate : trimOr d.date ≠ "") (srow : Student)
    (hsrow : getStudentForTeacher st tid sid = some srow) (hsdel : srow.isDeleted = false)
    (row : AttRow) (hrow : findAttendance st tid sid (trimOr d.date) = some row)
    (hnewer : isIncomingNewer (some c) row.updatedAt = true) :
    processAttendance tid st opId e "delete" c d =
      (writeAttendance st row.id tid { row with isDeleted := true, updatedAt := some st.now },
       { applied := [{ op_id := some opId, entity := some e, action := some "delete",
                       id := some row.id, server_updated_at := some st.now }] }) := by
  unfold processAttendance
  dsimp only
  rw [hsid]
  dsimp only
  rw [if_neg (by simp [hsid0, hdate]), hsrow]
  dsimp only
  rw [if_neg (by simp [hsdel]), if_pos (by decide), hrow]
  dsimp only
  rw [if_neg (by simp [hnewer])]

lemma processAttendance_upsert_stale (tid : String) (st : ServerState) (opId e a : String)
    (c : Int) (d : OpData) (hd : (a == "delete") = false)
    (hcu : (a == "create" || a == "update") = true)
    (hstatus : trimOr d.status = "Present" ∨ trimOr d.status = "Absent")
    (sid : Nat) (hsid : d.student_id = some sid) (hsid0 : sid ≠ 0)
    (hdate : trimOr d.date ≠ "") (srow : Student)
    (hsrow : getStudentForTeacher st tid sid = some srow) (hsdel : srow.isDeleted = false)
    (row : AttRow) (hrow : findAttendance st tid sid (trimOr d.date) = some row)
    (hstale : isIncomingNewer (some c) row.updatedAt = false) :
    processAttendance tid st opId e a c d =
      (st, { rejected := [{ op_id := some opId, entity := some e, action := some a,
                            reason := some "Stale update (LWW)", id := some row.id,
                            server_updated_at := row.updatedAt }] }) := by
  unfold processAttendance
  dsimp only
  rw [hsid]
  dsimp only
  rw [if_neg (by simp [hsid0, hdate]), hsrow]
  dsimp only
  rw [if_neg (by simp [hsdel]), if_neg (by simp [hd]), if_pos hcu]
  rw [if_neg (by rcases hstatus with h | h <;> simp [h]), hrow]
  dsimp only
  rw [if_pos (by simp [hstale])]

lemma processAttendance_upsert_newer (tid : String) (st : ServerState) (opId e a : String)
    (c : Int) (d : OpData) (hd : (a == "delete") = false)
    (hcu : (a == "create" || a == "update") = true)
    (hstatus : trimOr d.status = "Present" ∨ trimOr d.status = "Absent")
    (sid : Nat) (hsid : d.student_id = some sid) (hsid0 : sid ≠ 0)
    (hdate : trimOr d.date ≠ "") (srow : Student)
    (hsrow : getStudentForTeacher st tid sid = some srow) (hsdel : srow.isDeleted = false)
    (row : AttRow) (hrow : findAttendance st tid sid (trimOr d.date) = some row)
    (hnewer : isIncomingNewer (some c) row.updatedAt = true) :
    (processAttendance tid st opId e a c d).2.applied =
      [{ op_id := some opId, entity := some e, action := some "update",
         id := some row.id, server_updated_at := some st.now }] ∧
    (processAttendance tid st opId e a c d).1.attendance =
      (writeAttendance st row.id tid
        { row with status := trimOr d.status, isDeleted := false,
                   updatedAt := some st.now }).attendance := by
  unfold processAttendance
  dsimp only
  rw [hsid]
  dsimp only
  rw [if_neg (by simp [hsid0, hdate]), hsrow]
  dsimp only
  rw [if_neg (by simp [hsdel]), if_neg (by simp [hd]), if_pos hcu]
  rw [if_neg (by rcases hstatus with h | h <;> simp [h]), hrow]
  dsimp only
  rw [if_neg (by simp [hnewer])]
  constructor <;> (split <;> rfl)

lemma processAttendance_upsert_create (tid : String) (st : ServerState) (opId e a : String)
    (c : Int) (d : OpData) (hd : (a == "delete") = false)
    (hcu : (a == "create" || a == "update") = true)
    (hstatus : trimOr d.status = "Present" ∨ trimOr d.status = "Absent")
    (sid : Nat) (hsid : d.student_id = some sid) (hsid0 : sid ≠ 0)
    (hdate : trimOr d.date ≠ "") (srow : Student)
    (hsrow : getStudentForTeacher st tid sid = some srow) (hsdel : srow.isDeleted = false)
    (hrow : findAttendance st tid sid (trimOr d.date) = none) :
    processAttendance tid st opId e a c d =
      ({ st with attendance := st.attendance ++
                   [{ id := st.attSeq + 1, teacherId := tid, studentId := sid,
                      date := trimOr d.date, status := trimOr d.status, isDeleted := false,
                      updatedAt := some st.now }],
                 attSeq := st.attSeq + 1 },
       { applied := [{ op_id := some opId, entity := some e, action := some "create",
                       id := some (st.attSeq + 1),
                       server_updated_at := some st.now }] }) := by
  unfold processAttendance
  dsimp only
  rw [hsid]
  dsimp only
  rw [if_neg (by simp [hsid0, hdate]), hsrow]
  dsimp only
  rw [if_neg (by simp [hsdel]), if_neg (by simp [hd]), if_pos hcu]
  rw [if_neg (by rcases hstatus with h | h <;> simp [h]), hrow]

lemma processSync_append (f : String → Option String) (tid : String) (st : ServerState)
    (l1 l2 : List Operation) :
    processSync f tid st (l1 ++ l2) =
      ((processSync f tid (processSync f tid st l1).1 l2).1,
       Outcome.comb (processSync f tid st l1).2
         (processSync f tid (processSync f tid st l1).1 l2).2) := by
  induction l1 generalizing st with
  | nil => simp [processSync, Outcome.comb]
  | cons op ops ih =>
    simp only [List.cons_append, processSync, List.append_eq]
    rw [ih]
    simp [Outcome.comb, List.append_assoc]

lemma processSync_pair_state (f : String → Option String) (tid : String)
    (st : ServerState) (x y : Operation) :
    (processSync f tid st [x, y]).1 = (processOp f tid (processOp f tid st x).1 y).1 := by
  simp [processSync]

lemma processOp_fault (f : String → Option String) (tid oid msg : String)
    (st : ServerState) (op : Operation) (h1 : op.op_id = some oid)
    (h2 : jsTrim oid ≠ "") (h3 : truthyStr op.entity = true)
    (h4 : truthyStr op.action = true) (h5 : op.client_updated_at.isSome = true)
    (hfresh : oid ∉ st.dedupe) (hf : f oid = some msg) :
    processOp f tid st op =
      (st, { rejected := [{ op_id := some oid, entity := op.entity, action := op.action,
                            reason := some "Server error", err := some msg }] }) := by
  rw [processOp.eq_def, h1]
  dsimp only
  rw [if_neg (by simp [h2])]
  rw [if_neg (by simp [h3, h4])]
  obtain ⟨c, hc⟩ := Option.isSome_iff_exists.mp h5
  rw [hc]
  dsimp only
  rw [if_neg hfresh, hf]

/-! ### Lemmas about the client sync driver -/

lemma find?_append_false {α} (p : α → Bool) (l1 l2 : List α)
    (h : ∀ x ∈ l1, p x = false) :
    (l1 ++ l2).find? p = l2.find? p := by
  induction l1 with
  | nil => rfl
  | cons x xs ih =>
    rw [List.cons_append, List.find?_cons_of_neg _ (by simp [h x (List.mem_cons_self x xs)])]
    exact ih fun y hy => h y (List.mem_cons_of_mem x hy)

lemma filter_false_nil {α} (p : α → Bool) (l : List α) (h : ∀ x ∈ l, p x = false) :
    l.filter p = [] := by
  induction l with
  | nil => rfl
  | cons x xs ih =>
    rw [List.filter_cons_of_neg (by simp [h x (List.mem_cons_self x xs)])]
    exact ih fun y hy => h y (List.mem_cons_of_mem x hy)

lemma map_congr_fn {α β} (f g : α → β) (l : List α) (h : ∀ x ∈ l, f x = g x) :
    l.map f = l.map g := by
  induction l with
  | nil => rfl
  | cons x xs ih =>
    rw [List.map_cons, List.map_cons, h x (List.mem_cons_self x xs)]
    rw [ih fun y hy => h y (List.mem_cons_of_mem x hy)]

lemma attachServerIdToStudent_students (db : LocalDb) (tid : String) (roll : Int)
    (sid : Nat) (t : Int) :
    (attachServerIdToStudent db tid roll sid t).students =
      db.students.map fun s =>
        if s.teacher_id == tid && s.roll_no == roll then
          { s with server_id := some sid, updated_at := t }
        else s := by
  unfold attachServerIdToStudent updateQueuedAttendanceStudentId
  dsimp only
  split <;> rfl

lemma attachServerIdToStudent_queue_ids (db : LocalDb) (tid : String) (roll : Int)
    (sid : Nat) (t : Int) :
    (attachServerIdToStudent db tid roll sid t).queue.map (fun q => q.id) =
      db.queue.map fun q => q.id := by
  unfold attachServerIdToStudent updateQueuedAttendanceStudentId
  dsimp only
  split
  · rw [List.map_map]
    refine map_congr_fn _ _ _ fun q _ => ?_
    simp only [Function.comp]
    repeat' split
    all_goals rfl
  · rfl

lemma filter_true_self {α} (p : α → Bool) (l : List α) (h : ∀ x ∈ l, p x = true) :
    l.filter p = l := by
  induction l with
  | nil => rfl
  | cons x xs ih =>
    rw [List.filter_cons_of_pos (h x (List.mem_cons_self x xs))]
    rw [ih fun y hy => h y (List.mem_cons_of_mem x hy)]

lemma contains_singleton {α} [BEq α] (a b : α) : [a].contains b = (b == a) := by
  cases h : b == a <;> simp [List.contains, List.elem, h]

lemma attachServerIdToStudent_queue_shape (db : LocalDb) (tid : String) (roll : Int)
    (sid : Nat) (t : Int) :
    ∃ g : QueueRow → QueueRow, (∀ q, (g q).id = q.id) ∧
      (attachServerIdToStudent db tid roll sid t).queue = db.queue.map g := by
  unfold attachServerIdToStudent updateQueuedAttendanceStudentId
  dsimp only
  split
  · refine ⟨_, fun q => ?_, rfl⟩
    repeat' split
    all_goals rfl
  · exact ⟨id, fun q => rfl, (List.map_id _).symm⟩

/-! ### Claim theorems -/

/-- C9: for every attempt count `n ≥ 0`, `computeBackoffMs` — which clamps the
exponent to at most 6 before exponentiating — returns exactly the value of the
spec's uncapped formula `min(60s, 1s * 2^n)`. -/
theorem backoff_matches_uncapped_spec (n : Nat) :
    computeBackoffMs n = min 60000 (1000 * 2 ^ n) := by
  simp only [computeBackoffMs]
  rcases le_or_lt n 6 with h | h
  · have he : min 6 (max 0 n) = n := by omega
    rw [he]
  · have he : min 6 (max 0 n) = 6 := by omega
    rw [he]
    have h2 : (60000 : Nat) ≤ 1000 * 2 ^ n := by
      have hp : (2 : Nat) ^ 7 ≤ 2 ^ n := Nat.pow_le_pow_right (by omega) (by omega)
      have hm : 1000 * 2 ^ 7 ≤ 1000 * 2 ^ n := Nat.mul_le_mul_left 1000 hp
      omega
    have h6 : (1000 : Nat) * 2 ^ 6 = 64000 := by norm_num
    rw [h6, Nat.min_eq_left (by omega), Nat.min_eq_left h2]

/-- C2: replaying an operation whose `op_id` is already in the per-principal
dedupe ledger yields a single `skipped` verdict ("Duplicate op_id"), never a
second `applied`, and leaves the entire server state — in particular the
`students` and `attendance` tables — unchanged. -/
theorem replayed_op_id_skipped_not_reapplied (f : String → Option String)
    (tid oid : String) (st : ServerState) (op : Operation)
    (h1 : op.op_id = some oid) (h2 : jsTrim oid ≠ "")
    (h3 : truthyStr op.entity = true) (h4 : truthyStr op.action = true)
    (h5 : op.client_updated_at.isSome = true) (hdup : oid ∈ st.dedupe) :
    processOp f tid st op =
      (st, { skipped := [{ op_id := some oid, entity := op.entity, action := op.action,
                           reason := some "Duplicate op_id" }] }) :=
  processOp_dup f tid oid st op h1 h2 h3 h4 h5 hdup

/-- Witness for C2: a student-create replay whose op id is already in the
ledger is skipped and changes nothing. -/
theorem replayed_op_id_skipped_not_reapplied_witness :
    processOp (fun _ => none) "t1"
      { students := [], attendance := [], dedupe := ["op-1"], studentSeq := 0,
        attSeq := 0, now := 10 }
      { op_id := some "op-1", entity := some "student", action := some "create",
        client_updated_at := some 5, data := { roll_no := some 7, name := some "Asha" } } =
      ({ students := [], attendance := [], dedupe := ["op-1"], studentSeq := 0,
         attSeq := 0, now := 10 },
       { skipped := [{ op_id := some "op-1", entity := some "student",
                       action := some "create", reason := some "Duplicate op_id" }] }) :=
  replayed_op_id_skipped_not_reapplied (fun _ => none) "t1" "op-1" _ _
    (by decide) (by decide) (by decide) (by decide) (by decide) (by decide)

/-- C10: the dedupe-ledger insert happens before payload validation and before
the LWW comparison, so any operation passing envelope validation consumes its
op id no matter which verdict it later receives; and from any later state whose
ledger contains that op id, a replay is answered with a single `skipped`
verdict and no state change — it is never re-evaluated. -/
theorem dedupe_consumed_before_validation (f : String → Option String)
    (tid oid : String) (st : ServerState) (op : Operation)
    (h1 : op.op_id = some oid) (h2 : jsTrim oid ≠ "")
    (h3 : truthyStr op.entity = true) (h4 : truthyStr op.action = true)
    (h5 : op.client_updated_at.isSome = true)
    (hfresh : oid ∉ st.dedupe) (hnf : f oid = none) :
    oid ∈ (processOp f tid st op).1.dedupe ∧
    ∀ (st2 : ServerState) (op2 : Operation), op2.op_id = some oid →
      truthyStr op2.entity = true → truthyStr op2.action = true →
      op2.client_updated_at.isSome = true → oid ∈ st2.dedupe →
      processOp f tid st2 op2 =
        (st2, { skipped := [{ op_id := some oid, entity := op2.entity,
                              action := op2.action,
                              reason := some "Duplicate op_id" }] }) :=
  ⟨processOp_fresh_consumes f tid oid st op h1 h2 h3 h4 h5 hfresh hnf,
   fun st2 op2 h1' h3' h4' h5' hdup =>
     processOp_dup f tid oid st2 op2 h1' h2 h3' h4' h5' hdup⟩

/-- Witness for C10: a student update that will be rejected as stale (client
stamp 0 against stored stamp 10) still consumes its op id, and its replay from
the resulting state is skipped. -/
theorem dedupe_consumed_before_validation_witness :
    "op-1" ∈ (processOp (fun _ => none) "t1"
      { students := [{ id := 1, teacherId := "t1", rollNo := 7, name := "Asha",
                       isDeleted := false, updatedAt := some 10 }],
        attendance := [], dedupe := [], studentSeq := 1, attSeq := 0, now := 20 }
      { op_id := some "op-1", entity := some "student", action := some "update",
        client_updated_at := some 0,
        data := { roll_no := some 7, name := some "Late" } }).1.dedupe ∧
    ∀ (st2 : ServerState) (op2 : Operation), op2.op_id = some "op-1" →
      truthyStr op2.entity = true → truthyStr op2.action = true →
      op2.client_updated_at.isSome = true → "op-1" ∈ st2.dedupe →
      processOp (fun _ => none) "t1" st2 op2 =
        (st2, { skipped := [{ op_id := some "op-1", entity := op2.entity,
                              action := op2.action,
                              reason := some "Duplicate op_id" }] }) :=
  dedupe_consumed_before_validation (fun _ => none) "t1" "op-1" _ _
    (by decide) (by decide) (by decide) (by decide) (by decide) (by decide) (by decide)

/-- C1: for every `/sync` operation — student or attendance, update or delete —
that targets an existing stored record of the calling principal (the four
disjuncts of `hcase` are exactly the code paths that reach the LWW comparison
against a stored `updated_at` of `u`): if `client_updated_at ≤ u` (ties
included) the server answers with a single `rejected` verdict whose reason is
"Stale update (LWW)" and which carries the record's current `updated_at`, and
both entity tables are left unchanged; the change is applied only when
`client_updated_at` is strictly greater than `u`. -/
theorem lww_stale_rejected_strict_newer_applied
    (f : String → Option String) (tid oid : String) (st : ServerState)
    (op : Operation) (d : OpData) (c u : Int)
    (h2 : jsTrim oid ≠ "") (hfresh : oid ∉ st.dedupe) (hnf : f oid = none)
    (hcase :
      (op = { op_id := some oid, entity := some "student", action := some "delete",
              client_updated_at := some c, data := d } ∧
       ∃ row, studentDeleteTarget st tid d = some row ∧ row.updatedAt = some u) ∨
      ((op = { op_id := some oid, entity := some "student", action := some "create",
               client_updated_at := some c, data := d } ∨
        op = { op_id := some oid, entity := some "student", action := some "update",
               client_updated_at := some c, data := d }) ∧
       trimOr d.name ≠ "" ∧
       ∃ roll, d.roll_no = some roll ∧ 0 < roll ∧
         ∃ row, studentUpsertTarget st tid d roll = some row ∧ row.updatedAt = some u) ∨
      (op = { op_id := some oid, entity := some "attendance", action := some "delete",
              client_updated_at := some c, data := d } ∧
       ∃ sid, d.student_id = some sid ∧ sid ≠ 0 ∧ trimOr d.date ≠ "" ∧
         (∃ srow, getStudentForTeacher st tid sid = some srow ∧ srow.isDeleted = false) ∧
         ∃ row, findAttendance st tid sid (trimOr d.date) = some row ∧
           row.updatedAt = some u) ∨
      ((op = { op_id := some oid, entity := some "attendance", action := some "create",
               client_updated_at := some c, data := d } ∨
        op = { op_id := some oid, entity := some "attendance", action := some "update",
               client_updated_at := some c, data := d }) ∧
       (trimOr d.status = "Present" ∨ trimOr d.status = "Absent") ∧
       ∃ sid, d.student_id = some sid ∧ sid ≠ 0 ∧ trimOr d.date ≠ "" ∧
         (∃ srow, getStudentForTeacher st tid sid = some srow ∧ srow.isDeleted = false) ∧
         ∃ row, findAttendance st tid sid (trimOr d.date) = some row ∧
           row.updatedAt = some u)) :
    (c ≤ u →
      (processOp f tid st op).1.students = st.students ∧
      (processOp f tid st op).1.attendance = st.attendance ∧
      (processOp f tid st op).2.applied = [] ∧
      (processOp f tid st op).2.skipped = [] ∧
      ∃ v, (processOp f tid st op).2.rejected = [v] ∧
        v.reason = some "Stale update (LWW)" ∧ v.server_updated_at = some u) ∧
    (u < c → (processOp f tid st op).2.applied ≠ []) := by
  rcases hcase with ⟨hop, row, hrow, hu⟩ | ⟨hopor, hname, roll, hroll, hrpos, row, hrow, hu⟩ |
    ⟨hop, sid, hsid, hsid0, hdate, ⟨srow, hsrow, hsdel⟩, row, hrow, hu⟩ |
    ⟨hopor, hstatus, sid, hsid, hsid0, hdate, ⟨srow, hsrow, hsdel⟩, row, hrow, hu⟩
  · -- student delete
    subst hop
    have hdisp := processOp_dispatch f tid oid "student" "delete" st c d h2 (by decide)
      (by decide) hfresh hnf
    rw [if_pos (by decide)] at hdisp
    have hrow' : studentDeleteTarget { st with dedupe := oid :: st.dedupe } tid d =
        some row :=
      (studentDeleteTarget_dedupe st (oid :: st.dedupe) tid d).trans hrow
    constructor
    · intro hle
      have hstale : isIncomingNewer (some c) row.updatedAt = false := by
        rw [hu]; simp [isIncomingNewer]; omega
      rw [hdisp, processStudent_delete_stale tid _ oid "student" c d row hrow' hstale]
      exact ⟨rfl, rfl, rfl, rfl, _, rfl, rfl, hu⟩
    · intro hlt
      have hnewer : isIncomingNewer (some c) row.updatedAt = true := by
        rw [hu]; simp [isIncomingNewer]; omega
      rw [hdisp, processStudent_delete_newer tid _ oid "student" c d row hrow' hnewer]
      simp
  · -- student create / update on an existing row
    have main : ∀ a : String, (a == "delete") = false →
        (a == "create" || a == "update") = true → a ≠ "" →
        (c ≤ u →
          (processOp f tid st { op_id := some oid, entity := some "student",
                                action := some a, client_updated_at := some c,
                                data := d }).1.students = st.students ∧
          (processOp f tid st { op_id := some oid, entity := some "student",
                                action := some a, client_updated_at := some c,
                                data := d }).1.attendance = st.attendance ∧
          (processOp f tid st { op_id := some oid, entity := some "student",
                                action := some a, client_updated_at := some c,
                                data := d }).2.applied = [] ∧
          (processOp f tid st { op_id := some oid, entity := some "student",
                                action := some a, client_updated_at := some c,
                                data := d }).2.skipped = [] ∧
          ∃ v, (processOp f tid st { op_id := some oid, entity := some "student",
                                     action := some a, client_updated_at := some c,
                                     data := d }).2.rejected = [v] ∧
            v.reason = some "Stale update (LWW)" ∧ v.server_updated_at = some u) ∧
        (u < c →
          (processOp f tid st { op_id := some oid, entity := some "student",
                                action := some a, client_updated_at := some c,
                                data := d }).2.applied ≠ []) := by
      intro a hd hcu ha
      have hdisp := processOp_dispatch f tid oid "student" a st c d h2 (by decide) ha
        hfresh hnf
      rw [if_pos (by decide)] at hdisp
      have hrow' : studentUpsertTarget { st with dedupe := oid :: st.dedupe } tid d roll =
          some row :=
        (studentUpsertTarget_dedupe st (oid :: st.dedupe) tid d roll).trans hrow
      constructor
      · intro hle
        have hstale : isIncomingNewer (some c) row.updatedAt = false := by
          rw [hu]; simp [isIncomingNewer]; omega
        rw [hdisp, processStudent_upsert_stale tid _ oid "student" a c d hd hcu hname
          roll hroll hrpos row hrow' hstale]
        exact ⟨rfl, rfl, rfl, rfl, _, rfl, rfl, hu⟩
      · intro hlt
        have hnewer : isIncomingNewer (some c) row.updatedAt = true := by
          rw [hu]; simp [isIncomingNewer]; omega
        rw [hdisp, processStudent_upsert_newer tid _ oid "student" a c d hd hcu hname
          roll hroll hrpos row hrow' hnewer]
        simp
    rcases hopor with hop | hop
    · subst hop; exact main "create" (by decide) (by decide) (by decide)
    · subst hop; exact main "update" (by decide) (by decide) (by decide)
  · -- attendance delete
    subst hop
    have hdisp := processOp_dispatch f tid oid "attendance" "delete" st c d h2 (by decide)
      (by decide) hfresh hnf
    rw [if_neg (by decide), if_pos (by decide)] at hdisp
    have hsrow' : getStudentForTeacher { st with dedupe := oid :: st.dedupe } tid sid =
        some srow :=
      (getStudentForTeacher_dedupe st (oid :: st.dedupe) tid sid).trans hsrow
    have hrow' : findAttendance { st with dedupe := oid :: st.dedupe } tid sid
        (trimOr d.date) = some row :=
      (findAttendance_dedupe st (oid :: st.dedupe) tid sid (trimOr d.date)).trans hrow
    constructor
    · intro hle
      have hstale : isIncomingNewer (some c) row.updatedAt = false := by
        rw [hu]; simp [isIncomingNewer]; omega
      rw [hdisp, processAttendance_delete_stale tid _ oid "attendance" c d sid hsid hsid0
        hdate srow hsrow' hsdel row hrow' hstale]
      exact ⟨rfl, rfl, rfl, rfl, _, rfl, rfl, hu⟩
    · intro hlt
      have hnewer : isIncomingNewer (some c) row.updatedAt = true := by
        rw [hu]; simp [isIncomingNewer]; omega
      rw [hdisp, processAttendance_delete_newer tid _ oid "attendance" c d sid hsid hsid0
        hdate srow hsrow' hsdel row hrow' hnewer]
      simp
  · -- attendance create / update on an existing mark
    have main : ∀ a : String, (a == "delete") = false →
        (a == "create" || a == "update") = true → a ≠ "" →
        (c ≤ u →
          (processOp f tid st { op_id := some oid, entity := some "attendance",
                                action := some a, client_updated_at := some c,
                                data := d }).1.students = st.students ∧
          (processOp f tid st { op_id := some oid, entity := some "attendance",
                                action := some a, client_updated_at := some c,
                                data := d }).1.attendance = st.attendance ∧
          (processOp f tid st { op_id := some oid, entity := some "attendance",
                                action := some a, client_updated_at := some c,
                                data := d }).2.applied = [] ∧
          (processOp f tid st { op_id := some oid, entity := some "attendance",
                                action := some a, client_updated_at := some c,
                                data := d }).2.skipped = [] ∧
          ∃ v, (processOp f tid st { op_id := some oid, entity := some "attendance",
                                     action := some a, client_updated_at := some c,
                                     data := d }).2.rejected = [v] ∧
            v.reason = some "Stale update (LWW)" ∧ v.server_updated_at = some u) ∧
        (u < c →
          (processOp f tid st { op_id := some oid, entity := some "attendance",
                                action := some a, client_updated_at := some c,
                                data := d }).2.applied ≠ []) := by
      intro a hd hcu ha
      have hdisp := processOp_dispatch f tid oid "attendance" a st c d h2 (by decide) ha
        hfresh hnf
      rw [if_neg (by decide), if_pos (by decide)] at hdisp
      have hsrow' : getStudentForTeacher { st with dedupe := oid :: st.dedupe } tid sid =
          some srow :=
        (getStudentForTeacher_dedupe st (oid :: st.dedupe) tid sid).trans hsrow
      have hrow' : findAttendance { st with dedupe := oid :: st.dedupe } tid sid
          (trimOr d.date) = some row :=
        (findAttendance_dedupe st (oid :: st.dedupe) tid sid (trimOr d.date)).trans hrow
      constructor
      · intro hle
        have hstale : isIncomingNewer (some c) row.updatedAt = false := by
          rw [hu]; simp [isIncomingNewer]; omega
        rw [hdisp, processAttendance_upsert_stale tid _ oid "attendance" a c d hd hcu
          hstatus sid hsid hsid0 hdate srow hsrow' hsdel row hrow' hstale]
        exact ⟨rfl, rfl, rfl, rfl, _, rfl, rfl, hu⟩
      · intro hlt
        have hnewer : isIncomingNewer (some c) row.updatedAt = true := by
          rw [hu]; simp [isIncomingNewer]; omega
        rw [hdisp,
          (processAttendance_upsert_newer tid _ oid "attendance" a c d hd hcu hstatus sid
            hsid hsid0 hdate srow hsrow' hsdel row hrow' hnewer).1]
        simp
    rcases hopor with hop | hop
    · subst hop; exact main "create" (by decide) (by decide) (by decide)
    · subst hop; exact main "update" (by decide) (by decide) (by decide)

/-- Witness for C1: a student update carrying `client_updated_at = 5` against a
stored row with `updated_at = 5` (an exact tie) is rejected as stale with the
server stamp attached, and nothing is applied. -/
theorem lww_stale_rejected_strict_newer_applied_witness :
    ((5 : Int) ≤ 5 →
      (processOp (fun _ => none) "t1"
        { students := [{ id := 1, teacherId := "t1", rollNo := 7, name := "Asha",
                         isDeleted := false, updatedAt := some 5 }],
          attendance := [], dedupe := [], studentSeq := 1, attSeq := 0, now := 9 }
        { op_id := some "op-1", entity := some "student", action := some "update",
          client_updated_at := some 5,
          data := { roll_no := some 7, name := some "Asha2" } }).1.students =
        [{ id := 1, teacherId := "t1", rollNo := 7, name := "Asha",
           isDeleted := false, updatedAt := some 5 }] ∧
      (processOp (fun _ => none) "t1"
        { students := [{ id := 1, teacherId := "t1", rollNo := 7, name := "Asha",
                         isDeleted := false, updatedAt := some 5 }],
          attendance := [], dedupe := [], studentSeq := 1, attSeq := 0, now := 9 }
        { op_id := some "op-1", entity := some "student", action := some "update",
          client_updated_at := some 5,
          data := { roll_no := some 7, name := some "Asha2" } }).1.attendance = [] ∧
      (processOp (fun _ => none) "t1"
        { students := [{ id := 1, teacherId := "t1", rollNo := 7, name := "Asha",
                         isDeleted := false, updatedAt := some 5 }],
          attendance := [], dedupe := [], studentSeq := 1, attSeq := 0, now := 9 }
        { op_id := some "op-1", entity := some "student", action := some "update",
          client_updated_at := some 5,
          data := { roll_no := some 7, name := some "Asha2" } }).2.applied = [] ∧
      (processOp (fun _ => none) "t1"
        { students := [{ id := 1, teacherId := "t1", rollNo := 7, name := "Asha",
                         isDeleted := false, updatedAt := some 5 }],
          attendance := [], dedupe := [], studentSeq := 1, attSeq := 0, now := 9 }
        { op_id := some "op-1", entity := some "student", action := some "update",
          client_updated_at := some 5,
          data := { roll_no := some 7, name := some "Asha2" } }).2.skipped = [] ∧
      ∃ v, (processOp (fun _ => none) "t1"
        { students := [{ id := 1, teacherId := "t1", rollNo := 7, name := "Asha",
                         isDeleted := false, updatedAt := some 5 }],
          attendance := [], dedupe := [], studentSeq := 1, attSeq := 0, now := 9 }
        { op_id := some "op-1", entity := some "student", action := some "update",
          client_updated_at := some 5,
          data := { roll_no := some 7, name := some "Asha2" } }).2.rejected = [v] ∧
        v.reason = some "Stale update (LWW)" ∧ v.server_updated_at = some 5) ∧
    ((5 : Int) < 5 →
      (processOp (fun _ => none) "t1"
        { students := [{ id := 1, teacherId := "t1", rollNo := 7, name := "Asha",
                         isDeleted := false, updatedAt := some 5 }],
          attendance := [], dedupe := [], studentSeq := 1, attSeq := 0, now := 9 }
        { op_id := some "op-1", entity := some "student", action := some "update",
          client_updated_at := some 5,
          data := { roll_no := some 7, name := some "Asha2" } }).2.applied ≠ []) :=
  lww_stale_rejected_strict_newer_applied (fun _ => none) "t1" "op-1"
    { students := [{ id := 1, teacherId := "t1", rollNo := 7, name := "Asha",
                     isDeleted := false, updatedAt := some 5 }],
      attendance := [], dedupe := [], studentSeq := 1, attSeq := 0, now := 9 }
    { op_id := some "op-1", entity := some "student", action := some "update",
      client_updated_at := some 5,
      data := { roll_no := some 7, name := some "Asha2" } }
    { roll_no := some 7, name := some "Asha2" } 5 5
    (by decide) (by decide) (by decide)
    (Or.inr (Or.inl ⟨Or.inr rfl, by decide, 7, rfl, by decide,
      { id := 1, teacherId := "t1", rollNo := 7, name := "Asha",
        isDeleted := false, updatedAt := some 5 }, by decide, rfl⟩))

/-- C3 (amended): two attendance operations for the same principal, student and
date carrying `client_updated_at` stamps `T` (Present) and `T + 1` (Absent)
both end with the `T + 1` operation's status stored, in either arrival order,
PROVIDED the server clock `now` — which stamps `updated_at` on every applied
insert or update — lies in the window `T ≤ now < T + 1`.  (Outside that window
the outcome depends on arrival order; see the counterexample.) -/
theorem scenario_b_tplus1_wins_within_clock_window (T now : Int)
    (hwin1 : T ≤ now) (hwin2 : now < T + 1) :
    ((findAttendance
        (processSync (fun _ => none) "t1"
          { students := [{ id := 1, teacherId := "t1", rollNo := 7, name := "Asha",
                           isDeleted := false, updatedAt := none }],
            attendance := [], dedupe := [], studentSeq := 1, attSeq := 0, now := now }
          [{ op_id := some "a", entity := some "attendance", action := some "create",
             client_updated_at := some T,
             data := { student_id := some 1, date := some "2026-02-08",
                       status := some "Present" } },
           { op_id := some "b", entity := some "attendance", action := some "create",
             client_updated_at := some (T + 1),
             data := { student_id := some 1, date := some "2026-02-08",
                       status := some "Absent" } }]).1
        "t1" 1 "2026-02-08").map AttRow.status = some "Absent") ∧
    ((findAttendance
        (processSync (fun _ => none) "t1"
          { students := [{ id := 1, teacherId := "t1", rollNo := 7, name := "Asha",
                           isDeleted := false, updatedAt := none }],
            attendance := [], dedupe := [], studentSeq := 1, attSeq := 0, now := now }
          [{ op_id := some "b", entity := some "attendance", action := some "create",
             client_updated_at := some (T + 1),
             data := { student_id := some 1, date := some "2026-02-08",
                       status := some "Absent" } },
           { op_id := some "a", entity := some "attendance", action := some "create",
             client_updated_at := some T,
             data := { student_id := some 1, date := some "2026-02-08",
                       status := some "Present" } }]).1
        "t1" 1 "2026-02-08").map AttRow.status = some "Absent") := by
  constructor
  · -- order: Present at T first, Absent at T + 1 second
    rw [processSync_pair_state]
    have hd1 := processOp_dispatch (fun _ => none) "t1" "a" "attendance" "create"
      { students := [{ id := 1, teacherId := "t1", rollNo := 7, name := "Asha",
                       isDeleted := false, updatedAt := none }],
        attendance := [], dedupe := [], studentSeq := 1, attSeq := 0, now := now }
      T { student_id := some 1, date := some "2026-02-08", status := some "Present" }
      (by decide) (by decide) (by decide) (by simp) rfl
    rw [if_neg (by decide), if_pos (by decide)] at hd1
    have hc1 := processAttendance_upsert_create "t1"
      { students := [{ id := 1, teacherId := "t1", rollNo := 7, name := "Asha",
                       isDeleted := false, updatedAt := none }],
        attendance := [], dedupe := ["a"], studentSeq := 1, attSeq := 0, now := now }
      "a" "attendance" "create" T
      { student_id := some 1, date := some "2026-02-08", status := some "Present" }
      (by decide) (by decide) (Or.inl (by decide)) 1 rfl (by decide) (by decide)
      { id := 1, teacherId := "t1", rollNo := 7, name := "Asha",
        isDeleted := false, updatedAt := none } rfl rfl rfl
    have hA1 : (processOp (fun _ => none) "t1"
        { students := [{ id := 1, teacherId := "t1", rollNo := 7, name := "Asha",
                         isDeleted := false, updatedAt := none }],
          attendance := [], dedupe := [], studentSeq := 1, attSeq := 0, now := now }
        { op_id := some "a", entity := some "attendance", action := some "create",
          client_updated_at := some T,
          data := { student_id := some 1, date := some "2026-02-08",
                    status := some "Present" } }).1 =
        { students := [{ id := 1, teacherId := "t1", rollNo := 7, name := "Asha",
                         isDeleted := false, updatedAt := none }],
          attendance := [{ id := 1, teacherId := "t1", studentId := 1,
                           date := "2026-02-08", status := "Present",
                           isDeleted := false, updatedAt := some now }],
          dedupe := ["a"], studentSeq := 1, attSeq := 1, now := now } :=
      congrArg Prod.fst (hd1.trans hc1)
    rw [hA1]
    have hd2 := processOp_dispatch (fun _ => none) "t1" "b" "attendance" "create"
      { students := [{ id := 1, teacherId := "t1", rollNo := 7, name := "Asha",
                       isDeleted := false, updatedAt := none }],
        attendance := [{ id := 1, teacherId := "t1", studentId := 1,
                         date := "2026-02-08", status := "Present",
                         isDeleted := false, updatedAt := some now }],
        dedupe := ["a"], studentSeq := 1, attSeq := 1, now := now }
      (T + 1) { student_id := some 1, date := some "2026-02-08", status := some "Absent" }
      (by decide) (by decide) (by decide) (by simp) rfl
    rw [if_neg (by decide), if_pos (by decide)] at hd2
    rw [hd2]
    have hup := processAttendance_upsert_newer "t1"
      { students := [{ id := 1, teacherId := "t1", rollNo := 7, name := "Asha",
                       isDeleted := false, updatedAt := none }],
        attendance := [{ id := 1, teacherId := "t1", studentId := 1,
                         date := "2026-02-08", status := "Present",
                         isDeleted := false, updatedAt := some now }],
        dedupe := ["b", "a"], studentSeq := 1, attSeq := 1, now := now }
      "b" "attendance" "create" (T + 1)
      { student_id := some 1, date := some "2026-02-08", status := some "Absent" }
      (by decide) (by decide) (Or.inr (by decide)) 1 rfl (by decide) (by decide)
      { id := 1, teacherId := "t1", rollNo := 7, name := "Asha",
        isDeleted := false, updatedAt := none } rfl rfl
      { id := 1, teacherId := "t1", studentId := 1, date := "2026-02-08",
        status := "Present", isDeleted := false, updatedAt := some now } rfl
      (by simp [isIncomingNewer]; omega)
    simp only [findAttendance]
    rw [hup.2]
    rfl
  · -- order: Absent at T + 1 first, Present at T second
    rw [processSync_pair_state]
    have hd1 := processOp_dispatch (fun _ => none) "t1" "b" "attendance" "create"
      { students := [{ id := 1, teacherId := "t1", rollNo := 7, name := "Asha",
                       isDeleted := false, updatedAt := none }],
        attendance := [], dedupe := [], studentSeq := 1, attSeq := 0, now := now }
      (T + 1) { student_id := some 1, date := some "2026-02-08", status := some "Absent" }
      (by decide) (by decide) (by decide) (by simp) rfl
    rw [if_neg (by decide), if_pos (by decide)] at hd1
    have hc1 := processAttendance_upsert_create "t1"
      { students := [{ id := 1, teacherId := "t1", rollNo := 7, name := "Asha",
                       isDeleted := false, updatedAt := none }],
        attendance := [], dedupe := ["b"], studentSeq := 1, attSeq := 0, now := now }
      "b" "attendance" "create" (T + 1)
      { student_id := some 1, date := some "2026-02-08", status := some "Absent" }
      (by decide) (by decide) (Or.inr (by decide)) 1 rfl (by decide) (by decide)
      { id := 1, teacherId := "t1", rollNo := 7, name := "Asha",
        isDeleted := false, updatedAt := none } rfl rfl rfl
    have hB1 : (processOp (fun _ => none) "t1"
        { students := [{ id := 1, teacherId := "t1", rollNo := 7, name := "Asha",
                         isDeleted := false, updatedAt := none }],
          attendance := [], dedupe := [], studentSeq := 1, attSeq := 0, now := now }
        { op_id := some "b", entity := some "attendance", action := some "create",
          client_updated_at := some (T + 1),
          data := { student_id := some 1, date := some "2026-02-08",
                    status := some "Absent" } }).1 =
        { students := [{ id := 1, teacherId := "t1", rollNo := 7, name := "Asha",
                         isDeleted := false, updatedAt := none }],
          attendance := [{ id := 1, teacherId := "t1", studentId := 1,
                           date := "2026-02-08", status := "Absent",
                           isDeleted := false, updatedAt := some now }],
          dedupe := ["b"], studentSeq := 1, attSeq := 1, now := now } :=
      congrArg Prod.fst (hd1.trans hc1)
    rw [hB1]
    have hd2 := processOp_dispatch (fun _ => none) "t1" "a" "attendance" "create"
      { students := [{ id := 1, teacherId := "t1", rollNo := 7, name := "Asha",
                       isDeleted := false, updatedAt := none }],
        attendance := [{ id := 1, teacherId := "t1", studentId := 1,
                         date := "2026-02-08", status := "Absent",
                         isDeleted := false, updatedAt := some now }],
        dedupe := ["b"], studentSeq := 1, attSeq := 1, now := now }
      T { student_id := some 1, date := some "2026-02-08", status := some "Present" }
      (by decide) (by decide) (by decide) (by simp) rfl
    rw [if_neg (by decide), if_pos (by decide)] at hd2
    rw [hd2]
    have hst := processAttendance_upsert_stale "t1"
      { students := [{ id := 1, teacherId := "t1", rollNo := 7, name := "Asha",
                       isDeleted := false, updatedAt := none }],
        attendance := [{ id := 1, teacherId := "t1", studentId := 1,
                         date := "2026-02-08", status := "Absent",
                         isDeleted := false, updatedAt := some now }],
        dedupe := ["a", "b"], studentSeq := 1, attSeq := 1, now := now }
      "a" "attendance" "create" T
      { student_id := some 1, date := some "2026-02-08", status := some "Present" }
      (by decide) (by decide) (Or.inl (by decide)) 1 rfl (by decide) (by decide)
      { id := 1, teacherId := "t1", rollNo := 7, name := "Asha",
        isDeleted := false, updatedAt := none } rfl rfl
      { id := 1, teacherId := "t1", studentId := 1, date := "2026-02-08",
        status := "Absent", isDeleted := false, updatedAt := some now } rfl
      (by simp [isIncomingNewer]; omega)
    rw [hst]
    rfl

/-- Witness for C3 (amended): with `T = 100` and the server clock at `100` the
Absent mark carried at `T + 1 = 101` is stored in both arrival orders. -/
theorem scenario_b_tplus1_wins_within_clock_window_witness :
    ((findAttendance
        (processSync (fun _ => none) "t1"
          { students := [{ id := 1, teacherId := "t1", rollNo := 7, name := "Asha",
                           isDeleted := false, updatedAt := none }],
            attendance := [], dedupe := [], studentSeq := 1, attSeq := 0, now := 100 }
          [{ op_id := some "a", entity := some "attendance", action := some "create",
             client_updated_at := some 100,
             data := { student_id := some 1, date := some "2026-02-08",
                       status := some "Present" } },
           { op_id := some "b", entity := some "attendance", action := some "create",
             client_updated_at := some (100 + 1),
             data := { student_id := some 1, date := some "2026-02-08",
                       status := some "Absent" } }]).1
        "t1" 1 "2026-02-08").map AttRow.status = some "Absent") ∧
    ((findAttendance
        (processSync (fun _ => none) "t1"
          { students := [{ id := 1, teacherId := "t1", rollNo := 7, name := "Asha",
                           isDeleted := false, updatedAt := none }],
            attendance := [], dedupe := [], studentSeq := 1, attSeq := 0, now := 100 }
          [{ op_id := some "b", entity := some "attendance", action := some "create",
             client_updated_at := some (100 + 1),
             data := { student_id := some 1, date := some "2026-02-08",
                       status := some "Absent" } },
           { op_id := some "a", entity := some "attendance", action := some "create",
             client_updated_at := some 100,
             data := { student_id := some 1, date := some "2026-02-08",
                       status := some "Present" } }]).1
        "t1" 1 "2026-02-08").map AttRow.status = some "Absent") :=
  scenario_b_tplus1_wins_within_clock_window 100 100 (by decide) (by decide)

/-- C5: a student create with a valid payload (non-empty trimmed name, positive
integer roll number), a fresh op id, no stored row for `(principal, roll)` and
no matching authoritative id is applied on first submission: the server inserts
a new row and answers `applied` with the newly minted id — the outcome carries
no `rejected` and no `skipped` entry. -/
theorem fresh_student_create_applied
    (f : String → Option String) (tid oid nm : String) (st : ServerState)
    (op : Operation) (d : OpData) (roll c : Int)
    (hop : op = { op_id := some oid, entity := some "student", action := some "create",
                  client_updated_at := some c, data := d })
    (h2 : jsTrim oid ≠ "") (hfresh : oid ∉ st.dedupe) (hnf : f oid = none)
    (hnm : d.name = some nm) (hnm2 : jsTrim nm ≠ "")
    (hroll : d.roll_no = some roll) (hrpos : 0 < roll)
    (hnorow : findStudentByRoll st tid roll = none)
    (hid : d.id = none ∨ ∃ i, d.id = some i ∧ (i = 0 ∨ findStudentById st tid i = none)) :
    processOp f tid st op =
      ({ st with dedupe := oid :: st.dedupe,
                 students := st.students ++
                   [{ id := st.studentSeq + 1, teacherId := tid, rollNo := roll,
                      name := jsTrim nm, isDeleted := false, updatedAt := some st.now }],
                 studentSeq := st.studentSeq + 1 },
       { applied := [{ op_id := some oid, entity := some "student", action := some "create",
                       id := some (st.studentSeq + 1),
                       server_updated_at := some st.now }] }) := by
  subst hop
  have htarget : studentUpsertTarget st tid d roll = none := by
    rcases hid with h | ⟨i, hi, hz | hfind⟩
    · simp [studentUpsertTarget, h, hnorow]
    · simp [studentUpsertTarget, hi, hz, hnorow]
    · by_cases hz2 : i = 0
      · simp [studentUpsertTarget, hi, hz2, hnorow]
      · simp [studentUpsertTarget, hi, hz2, hfind]
  rw [processOp_dispatch f tid oid "student" "create" st c d h2 (by decide) (by decide)
    hfresh hnf]
  rw [if_pos (by decide)]
  unfold processStudent
  dsimp only
  rw [if_neg (by decide), if_pos (by decide)]
  rw [hnm]
  simp only [trimOr]
  rw [if_neg (by simp [hnm2])]
  rw [hroll]
  dsimp only
  rw [if_neg (not_le.mpr hrpos)]
  rw [studentUpsertTarget_dedupe st (oid :: st.dedupe) tid d roll, htarget]

/-- Witness for C5: creating roll 7 for a fresh principal store mints id 1 and
is applied. -/
theorem fresh_student_create_applied_witness :
    processOp (fun _ => none) "t1"
      { students := [], attendance := [], dedupe := [], studentSeq := 0,
        attSeq := 0, now := 10 }
      { op_id := some "op-1", entity := some "student", action := some "create",
        client_updated_at := some 5,
        data := { roll_no := some 7, name := some " Asha " } } =
      ({ students := [{ id := 1, teacherId := "t1", rollNo := 7, name := "Asha",
                        isDeleted := false, updatedAt := some 10 }],
         attendance := [], dedupe := ["op-1"], studentSeq := 1, attSeq := 0, now := 10 },
       { applied := [{ op_id := some "op-1", entity := some "student",
                       action := some "create", id := some 1,
                       server_updated_at := some 10 }] }) :=
  fresh_student_create_applied (fun _ => none) "t1" "op-1" " Asha " _ _
    { roll_no := some 7, name := some " Asha " } 7 5 rfl
    (by decide) (by decide) (by decide) (by decide) (by decide) (by decide)
    (by decide) (by decide) (Or.inl rfl)

/-- C6: an attendance operation of any action whose referenced student id does
not resolve to a roster row of the calling principal is rejected with "Student
does not belong to teacher", and one resolving to a soft-deleted row is
rejected with "Student is deleted"; in both cases no attendance row is written
(the attendance table of the resulting state is unchanged). -/
theorem attendance_referential_reject
    (f : String → Option String) (tid oid a : String) (st : ServerState)
    (op : Operation) (d : OpData) (c : Int) (sid : Nat)
    (hop : op = { op_id := some oid, entity := some "attendance", action := some a,
                  client_updated_at := some c, data := d })
    (h2 : jsTrim oid ≠ "") (ha : a ≠ "") (hfresh : oid ∉ st.dedupe) (hnf : f oid = none)
    (hsid : d.student_id = some sid) (hsid0 : sid ≠ 0) (hdate : trimOr d.date ≠ "") :
    (getStudentForTeacher st tid sid = none →
      processOp f tid st op =
        ({ st with dedupe := oid :: st.dedupe },
         { rejected := [{ op_id := some oid, entity := some "attendance", action := some a,
                          reason := some "Student does not belong to teacher" }] })) ∧
    (∀ srow, getStudentForTeacher st tid sid = some srow → srow.isDeleted = true →
      processOp f tid st op =
        ({ st with dedupe := oid :: st.dedupe },
         { rejected := [{ op_id := some oid, entity := some "attendance", action := some a,
                          reason := some "Student is deleted" }] })) := by
  subst hop
  rw [processOp_dispatch f tid oid "attendance" a st c d h2 (by decide) ha hfresh hnf]
  rw [if_neg (by decide), if_pos (by decide)]
  unfold processAttendance
  dsimp only
  rw [hsid]
  dsimp only
  rw [if_neg (by simp [hsid0, hdate])]
  rw [getStudentForTeacher_dedupe st (oid :: st.dedupe) tid sid]
  constructor
  · intro hnone
    rw [hnone]
  · intro srow hsome hdel
    rw [hsome]
    dsimp only
    rw [if_pos hdel]

/-- Witness for C6: marking attendance for student id 9, unknown to the
principal, is rejected with the referential reason and writes nothing. -/
theorem attendance_referential_reject_witness :
    ((getStudentForTeacher
        { students := [], attendance := [], dedupe := [], studentSeq := 0,
          attSeq := 0, now := 10 } "t1" 9 = none →
      processOp (fun _ => none) "t1"
        { students := [], attendance := [], dedupe := [], studentSeq := 0,
          attSeq := 0, now := 10 }
        { op_id := some "op-1", entity := some "attendance", action := some "create",
          client_updated_at := some 5,
          data := { student_id := some 9, date := some "2026-02-08",
                    status := some "Present" } } =
        ({ students := [], attendance := [], dedupe := ["op-1"], studentSeq := 0,
           attSeq := 0, now := 10 },
         { rejected := [{ op_id := some "op-1", entity := some "attendance",
                          action := some "create",
                          reason := some "Student does not belong to teacher" }] })) ∧
    (∀ srow, getStudentForTeacher
        { students := [], attendance := [], dedupe := [], studentSeq := 0,
          attSeq := 0, now := 10 } "t1" 9 = some srow → srow.isDeleted = true →
      processOp (fun _ => none) "t1"
        { students := [], attendance := [], dedupe := [], studentSeq := 0,
          attSeq := 0, now := 10 }
        { op_id := some "op-1", entity := some "attendance", action := some "create",
          client_updated_at := some 5,
          data := { student_id := some 9, date := some "2026-02-08",
                    status := some "Present" } } =
        ({ students := [], attendance := [], dedupe := ["op-1"], studentSeq := 0,
           attSeq := 0, now := 10 },
         { rejected := [{ op_id := some "op-1", entity := some "attendance",
                          action := some "create",
                          reason := some "Student is deleted" }] }))) :=
  attendance_referential_reject (fun _ => none) "t1" "op-1" "create" _ _
    { student_id := some 9, date := some "2026-02-08", status := some "Present" } 5 9
    rfl (by decide) (by decide) (by decide) (by decide) (by decide) (by decide)
    (by decide)

/-- C4 (evaluation at the failing input): a batch of one attendance update
against an existing, older mark produces TWO verdicts — the update is pushed
onto `applied`, then the branch re-inserts the already-consumed op id into the
dedupe ledger, the insert collides, and the per-operation catch pushes the same
operation onto `rejected` as well.  The three lists do not partition the
batch. -/
theorem attendance_update_double_verdict :
    (processSync (fun _ => none) "t1"
      { students := [{ id := 1, teacherId := "t1", rollNo := 7, name := "Asha",
                       isDeleted := false, updatedAt := some 0 }],
        attendance := [{ id := 1, teacherId := "t1", studentId := 1,
                         date := "2026-02-08", status := "Present",
                         isDeleted := false, updatedAt := some 0 }],
        dedupe := [], studentSeq := 1, attSeq := 1, now := 10 }
      [{ op_id := some "op-1", entity := some "attendance", action := some "update",
         client_updated_at := some 5,
         data := { student_id := some 1, date := some "2026-02-08",
                   status := some "Absent" } }]).2 =
      { applied := [{ op_id := some "op-1", entity := some "attendance",
                      action := some "update", id := some 1,
                      server_updated_at := some 10 }],
        skipped := [],
        rejected := [{ op_id := some "op-1", entity := some "attendance",
                       action := some "update", reason := some "Server error",
                       err := some "duplicate key value violates unique constraint" }] } := by
  decide

/-- C8: after enqueueing a student create and running the sync driver to a
successful completion in which the server reports that operation as `applied`
(echoing its wire op id and carrying the minted id `sid`), the enqueued queue
row is deleted — the surviving queue rows are exactly the previously queued
ones, so the queue is empty if it was the only row — and the local student
record keyed by `(teacher, roll)` carries the server-assigned `server_id`.
Rejected and skipped verdicts drive no deletion: every other queued row
remains. -/
theorem sync_applied_clears_queue_and_attaches_server_id
    (tid rid : String) (db0 : LocalDb) (p : QPayload) (roll : Int) (c nowMs t : Int)
    (sid : Nat) (resp : SyncResponse) (item : RespItem)
    (hlen : db0.queue.length < 50)
    (hids : ∀ o ∈ db0.queue, o.id ≠ db0.queueSeq + 1)
    (hproll : p.roll_no = some roll) (hrollnz : roll ≠ 0) (hsid0 : sid ≠ 0)
    (hitem : item = { op_id := some (mkOpId (db0.queueSeq + 1) rid),
                      entity := some "student", action := some "create",
                      id := some sid, server_updated_at := some t })
    (happ : resp.applied = [item]) :
    ((syncNowSuccess tid (fun _ => none) nowMs
        (enqueueOp db0 "student" rid "create" p c) resp).queue.map fun q => q.id) =
      (db0.queue.map fun q => q.id) ∧
    (db0.queue = [] →
      (syncNowSuccess tid (fun _ => none) nowMs
        (enqueueOp db0 "student" rid "create" p c) resp).queue = []) ∧
    ∀ s0 ∈ db0.students, s0.teacher_id = tid → s0.roll_no = roll →
      { s0 with server_id := some sid, updated_at := t } ∈
        (syncNowSuccess tid (fun _ => none) nowMs
          (enqueueOp db0 "student" rid "create" p c) resp).students := by
  subst hitem
  have hreprne : ∀ o ∈ db0.queue,
      (Nat.repr o.id == Nat.repr (db0.queueSeq + 1)) = false := fun o ho =>
    beq_eq_false_iff_ne.mpr fun h => hids o ho (repr_injective h)
  have hbs : backfillStudent tid
      (db0.queue ++ [{ id := db0.queueSeq + 1, table_name := "student", record_id := rid,
                       op_type := "create", payload := p, client_updated_at := c,
                       attempts := 0 }]) resp.server_time
      (enqueueOp db0 "student" rid "create" p c)
      { op_id := some (mkOpId (db0.queueSeq + 1) rid), entity := some "student",
        action := some "create", id := some sid, server_updated_at := some t } =
      attachServerIdToStudent (enqueueOp db0 "student" rid "create" p c) tid roll sid t := by
    unfold backfillStudent
    rw [if_pos (by simp)]
    simp only [Option.getD_some]
    rw [matchQueueOpId_mkOpId]
    dsimp only
    rw [find?_append_false _ _ _ hreprne]
    rw [List.find?_cons_of_pos _ (by simp)]
    dsimp only
    rw [hproll]
    rw [if_pos (by simp [truthyInt, truthyNat, hrollnz, hsid0])]
    rfl
  have hba : backfillAttendance tid
      (db0.queue ++ [{ id := db0.queueSeq + 1, table_name := "student", record_id := rid,
                       op_type := "create", payload := p, client_updated_at := c,
                       attempts := 0 }]) resp.server_time
      (attachServerIdToStudent (enqueueOp db0 "student" rid "create" p c) tid roll sid t)
      { op_id := some (mkOpId (db0.queueSeq + 1) rid), entity := some "student",
        action := some "create", id := some sid, server_updated_at := some t } =
      attachServerIdToStudent (enqueueOp db0 "student" rid "create" p c) tid roll sid t := by
    unfold backfillAttendance
    rw [if_neg (by simp)]
  have hitem_eval : handleAppliedItem tid
      (db0.queue ++ [{ id := db0.queueSeq + 1, table_name := "student", record_id := rid,
                       op_type := "create", payload := p, client_updated_at := c,
                       attempts := 0 }]) resp.server_time
      (enqueueOp db0 "student" rid "create" p c, [])
      { op_id := some (mkOpId (db0.queueSeq + 1) rid), entity := some "student",
        action := some "create", id := some sid, server_updated_at := some t } =
      (attachServerIdToStudent (enqueueOp db0 "student" rid "create" p c) tid roll sid t,
       [Nat.repr (db0.queueSeq + 1)]) := by
    unfold handleAppliedItem
    dsimp only
    rw [matchQueueOpId_mkOpId, hbs, hba]
    rfl
  have hdelEq : ((db0.queue ++ [({ id := db0.queueSeq + 1, table_name := "student",
                                   record_id := rid, op_type := "create", payload := p,
                                   client_updated_at := c, attempts := 0 } : QueueRow)]).filter
        (fun (row : QueueRow) => [Nat.repr (db0.queueSeq + 1)].contains (Nat.repr row.id))).map
        (fun (row : QueueRow) => row.id) = [db0.queueSeq + 1] := by
    rw [List.filter_append]
    rw [filter_false_nil _ _ (fun o ho => by
      rw [contains_singleton]
      exact hreprne o ho)]
    rw [List.filter_cons_of_pos (by rw [contains_singleton]; simp)]
    rfl
  have hmain : syncNowSuccess tid (fun _ => none) nowMs
      (enqueueOp db0 "student" rid "create" p c) resp =
      deleteQueueRows
        (attachServerIdToStudent (enqueueOp db0 "student" rid "create" p c) tid roll sid t)
        [db0.queueSeq + 1] := by
    unfold syncNowSuccess
    dsimp only
    rw [show getQueueBatch (enqueueOp db0 "student" rid "create" p c) 50 =
          db0.queue ++ [{ id := db0.queueSeq + 1, table_name := "student",
                          record_id := rid, op_type := "create", payload := p,
                          client_updated_at := c, attempts := 0 }] from
      List.take_of_length_le (by simp [enqueueOp]; omega)]
    rw [filter_true_self _ _ (fun a _ => rfl)]
    unfold handleSyncSuccess
    dsimp only
    rw [happ, List.foldl_cons, List.foldl_nil, hitem_eval]
    dsimp only
    rw [hdelEq]
  obtain ⟨g, hg, hqs⟩ :=
    attachServerIdToStudent_queue_shape (enqueueOp db0 "student" rid "create" p c)
      tid roll sid t
  have hqs2 : (attachServerIdToStudent (enqueueOp db0 "student" rid "create" p c)
      tid roll sid t).queue =
      (db0.queue ++ [({ id := db0.queueSeq + 1, table_name := "student", record_id := rid,
                        op_type := "create", payload := p, client_updated_at := c,
                        attempts := 0 } : QueueRow)]).map g := hqs
  have hfq : (syncNowSuccess tid (fun _ => none) nowMs
      (enqueueOp db0 "student" rid "create" p c) resp).queue = db0.queue.map g := by
    rw [hmain]
    unfold deleteQueueRows
    rw [if_neg (by simp)]
    dsimp only
    rw [hqs2, List.map_append]
    simp only [List.map_cons, List.map_nil]
    rw [List.filter_append]
    rw [List.filter_cons_of_neg (by simp [hg, contains_singleton])]
    rw [filter_true_self _ _ (fun x hx => by
      obtain ⟨o, ho, rfl⟩ := List.mem_map.mp hx
      simp [hg, contains_singleton, hids o ho])]
    simp
  have hstud : (syncNowSuccess tid (fun _ => none) nowMs
      (enqueueOp db0 "student" rid "create" p c) resp).students =
      db0.students.map fun s =>
        if s.teacher_id == tid && s.roll_no == roll then
          { s with server_id := some sid, updated_at := t }
        else s := by
    rw [hmain]
    unfold deleteQueueRows
    rw [if_neg (by simp)]
    exact attachServerIdToStudent_students (enqueueOp db0 "student" rid "create" p c)
      tid roll sid t
  refine ⟨?_, ?_, ?_⟩
  · rw [hfq, List.map_map]
    exact map_congr_fn _ _ _ fun o _ => hg o
  · intro hnil
    rw [hfq, hnil]
    rfl
  · intro s0 hs0 h1 h2
    rw [hstud]
    have hfs : (if s0.teacher_id == tid && s0.roll_no == roll then
        { s0 with server_id := some sid, updated_at := t } else s0) =
        { s0 with server_id := some sid, updated_at := t } := by
      rw [if_pos (by simp [h1, h2])]
    exact hfs ▸ List.mem_map_of_mem _ hs0

/-- Witness for C8: a single enqueued create whose verdict is applied leaves
the queue empty and attaches server id 11 to the local student row. -/
theorem sync_applied_clears_queue_and_attaches_server_id_witness :
    ((syncNowSuccess "t1" (fun _ => none) 0
        (enqueueOp
          { students := [{ local_id := 1, server_id := none, teacher_id := "t1",
                           roll_no := 7, name := "Nia", is_deleted := false,
                           updated_at := 0, client_updated_at := 0 }],
            attendance := [], queue := [], queueSeq := 0 }
          "student" "s1" "create" { roll_no := some 7 } 5)
        { applied := [{ op_id := some (mkOpId 1 "s1"), entity := some "student",
                        action := some "create", id := some 11,
                        server_updated_at := some 50 }],
          skipped := [], rejected := [], server_time := 60 }).queue.map fun q => q.id) =
      (([] : List QueueRow).map fun q => q.id) ∧
    (([] : List QueueRow) = [] →
      (syncNowSuccess "t1" (fun _ => none) 0
        (enqueueOp
          { students := [{ local_id := 1, server_id := none, teacher_id := "t1",
                           roll_no := 7, name := "Nia", is_deleted := false,
                           updated_at := 0, client_updated_at := 0 }],
            attendance := [], queue := [], queueSeq := 0 }
          "student" "s1" "create" { roll_no := some 7 } 5)
        { applied := [{ op_id := some (mkOpId 1 "s1"), entity := some "student",
                        action := some "create", id := some 11,
                        server_updated_at := some 50 }],
          skipped := [], rejected := [], server_time := 60 }).queue = []) ∧
    ∀ s0 ∈ [({ local_id := 1, server_id := none, teacher_id := "t1", roll_no := 7,
               name := "Nia", is_deleted := false, updated_at := 0,
               client_updated_at := 0 } : StudentLocalRow)],
      s0.teacher_id = "t1" → s0.roll_no = 7 →
      { s0 with server_id := some 11, updated_at := 50 } ∈
        (syncNowSuccess "t1" (fun _ => none) 0
          (enqueueOp
            { students := [{ local_id := 1, server_id := none, teacher_id := "t1",
                             roll_no := 7, name := "Nia", is_deleted := false,
                             updated_at := 0, client_updated_at := 0 }],
              attendance := [], queue := [], queueSeq := 0 }
            "student" "s1" "create" { roll_no := some 7 } 5)
          { applied := [{ op_id := some (mkOpId 1 "s1"), entity := some "student",
                          action := some "create", id := some 11,
                          server_updated_at := some 50 }],
            skipped := [], rejected := [], server_time := 60 }).students :=
  sync_applied_clears_queue_and_attaches_server_id "t1" "s1"
    { students := [{ local_id := 1, server_id := none, teacher_id := "t1", roll_no := 7,
                     name := "Nia", is_deleted := false, updated_at := 0,
                     client_updated_at := 0 }],
      attendance := [], queue := [], queueSeq := 0 }
    { roll_no := some 7 } 7 5 0 50 11
    { applied := [{ op_id := some (mkOpId 1 "s1"), entity := some "student",
                    action := some "create", id := some 11,
                    server_updated_at := some 50 }],
      skipped := [], rejected := [], server_time := 60 }
    { op_id := some (mkOpId 1 "s1"), entity := some "student", action := some "create",
      id := some 11, server_updated_at := some 50 }
    (by decide) (by simp) rfl (by decide) (by decide) rfl rfl

/-- C7: an unexpected storage error while processing one operation of a batch
(injected at the dedupe-ledger insert, the first store access of the try block)
yields exactly one `rejected` verdict with the generic "Server error" reason
for that operation, leaves the server state unchanged by it, and every
subsequent operation of the batch is still processed — the verdicts and final
state of the remainder are exactly those of processing it from the same
state. -/
theorem storage_fault_isolated_per_operation
    (f : String → Option String) (tid oid msg : String) (st : ServerState)
    (pre post : List Operation) (op : Operation)
    (h1 : op.op_id = some oid) (h2 : jsTrim oid ≠ "")
    (h3 : truthyStr op.entity = true) (h4 : truthyStr op.action = true)
    (h5 : op.client_updated_at.isSome = true)
    (hfresh : oid ∉ (processSync f tid st pre).1.dedupe)
    (hf : f oid = some msg) :
    processSync f tid st (pre ++ op :: post) =
      ((processSync f tid (processSync f tid st pre).1 post).1,
       Outcome.comb (processSync f tid st pre).2
         (Outcome.comb
           { rejected := [{ op_id := some oid, entity := op.entity, action := op.action,
                            reason := some "Server error", err := some msg }] }
           (processSync f tid (processSync f tid st pre).1 post).2)) := by
  rw [processSync_append]
  have hstep := processOp_fault f tid oid msg (processSync f tid st pre).1 op h1 h2 h3 h4
    h5 hfresh hf
  have hcons : processSync f tid (processSync f tid st pre).1 (op :: post) =
      ((processSync f tid (processSync f tid st pre).1 post).1,
       Outcome.comb
         { rejected := [{ op_id := some oid, entity := op.entity, action := op.action,
                          reason := some "Server error", err := some msg }] }
         (processSync f tid (processSync f tid st pre).1 post).2) := by
    simp only [processSync]
    rw [hstep]
  rw [hcons]

/-- Witness for C7: a batch whose first operation hits a storage fault still
processes the following create, which is applied. -/
theorem storage_fault_isolated_per_operation_witness :
    processSync (fun s => if s == "bad" then some "boom" else none) "t1"
      { students := [], attendance := [], dedupe := [], studentSeq := 0,
        attSeq := 0, now := 10 }
      ([] ++ { op_id := some "bad", entity := some "student", action := some "create",
               client_updated_at := some 5,
               data := { roll_no := some 7, name := some "Nia" } } ::
        [{ op_id := some "good", entity := some "student", action := some "create",
           client_updated_at := some 6,
           data := { roll_no := some 8, name := some "Ravi" } }]) =
      ((processSync (fun s => if s == "bad" then some "boom" else none) "t1"
          (processSync (fun s => if s == "bad" then some "boom" else none) "t1"
            { students := [], attendance := [], dedupe := [], studentSeq := 0,
              attSeq := 0, now := 10 } []).1
          [{ op_id := some "good", entity := some "student", action := some "create",
             client_updated_at := some 6,
             data := { roll_no := some 8, name := some "Ravi" } }]).1,
       Outcome.comb
         (processSync (fun s => if s == "bad" then some "boom" else none) "t1"
           { students := [], attendance := [], dedupe := [], studentSeq := 0,
             attSeq := 0, now := 10 } []).2
         (Outcome.comb
           { rejected := [{ op_id := some "bad", entity := some "student",
                            action := some "create", reason := some "Server error",
                            err := some "boom" }] }
           (processSync (fun s => if s == "bad" then some "boom" else none) "t1"
             (processSync (fun s => if s == "bad" then some "boom" else none) "t1"
               { students := [], attendance := [], dedupe := [], studentSeq := 0,
                 attSeq := 0, now := 10 } []).1
             [{ op_id := some "good", entity := some "student", action := some "create",
                client_updated_at := some 6,
                data := { roll_no := some 8, name := some "Ravi" } }]).2)) :=
  storage_fault_isolated_per_operation (fun s => if s == "bad" then some "boom" else none)
    "t1" "bad" "boom"
    { students := [], attendance := [], dedupe := [], studentSeq := 0,
      attSeq := 0, now := 10 }
    [] _ _ rfl (by decide) (by decide) (by decide) (by decide) (by decide) (by decide)

/-- C3 counterexample: two attendance marks for the same student and date
carrying client stamps `T = 100` (Present) and `T + 1 = 101` (Absent), with the
server clock at `102`.  In arrival order Present-then-Absent the server stamps
the created row with `updated_at = 102`, so the later `T + 1` operation is
rejected as stale and the stored status stays "Present" — not the status
carried by the `T + 1` operation, contradicting the claim's
"regardless of the order". -/
theorem scenario_b_order_dependence_cex :
    ((findAttendance
        (processSync (fun _ => none) "t1"
          { students := [{ id := 1, teacherId := "t1", rollNo := 7, name := "Asha",
                           isDeleted := false, updatedAt := some 0 }],
            attendance := [], dedupe := [], studentSeq := 1, attSeq := 0, now := 102 }
          [{ op_id := some "a", entity := some "attendance", action := some "create",
             client_updated_at := some 100,
             data := { student_id := some 1, date := some "2026-02-08",
                       status := some "Present" } },
           { op_id := some "b", entity := some "attendance", action := some "create",
             client_updated_at := some 101,
             data := { student_id := some 1, date := some "2026-02-08",
                       status := some "Absent" } }]).1
        "t1" 1 "2026-02-08").map AttRow.status = some "Present") ∧
    some "Present" ≠ some "Absent" := by
  decide

end AttendancePortal
